import Mathlib

set_option allowUnsafeReducibility true
set_option maxRecDepth 8000

/-!
Shallow embedding of the touchful detection / camera pipeline.

The JavaScript source computes over IEEE doubles; the embedding uses exact
rationals (`ℚ`).  Every `Math.sqrt d < c` test on a nonnegative radicand is
rendered as `d < c ^ 2` (the two are equivalent for `0 ≤ c`), so no square
roots appear.  `Math.floor` becomes `Rat.floor`, and `Math.round`, which
rounds half-way cases toward positive infinity, becomes `⌊q + 1/2⌋`.
-/

/-! ## Camera engine (`src/lib/cameraEngine.js`)

`CameraEngine` is a class with mutable fields; we embed it as a state record
plus pure transition functions.  The constructor constants
(`springStiffness = 0.08`, `damping = 0.85`, `zoomHoldDuration = 2.0`,
`clusterTimeout = 0.5`) are never reassigned, so they appear as named
constants. -/

/-- A tap event as consumed by the camera engine and produced by the
detector: `{time, x, y}` (the detector's constant `type: 'tap'` field is
dropped, and debug-only fields are not modelled). -/
structure TapEvent where
  time : ℚ
  x : ℚ
  y : ℚ
  deriving DecidableEq, Repr

/-- A keyframe `{time, x, y, zoom}` recorded by `generateKeyframes`. -/
structure Keyframe where
  time : ℚ
  x : ℚ
  y : ℚ
  zoom : ℚ
  deriving DecidableEq, Repr

/-- The mutable fields of a `CameraEngine` instance. -/
structure CameraState where
  videoWidth : ℚ
  videoHeight : ℚ
  x : ℚ
  y : ℚ
  targetX : ℚ
  targetY : ℚ
  zoom : ℚ
  targetZoom : ℚ
  velocityX : ℚ
  velocityY : ℚ
  velocityZoom : ℚ
  lastUpdateTime : ℚ
  lastTapTime : ℚ
  recentTaps : List TapEvent
  deriving DecidableEq, Repr

/-- `this.springStiffness = 0.08`. -/
def springStiffness : ℚ := 2 / 25

/-- `this.damping = 0.85`. -/
def damping : ℚ := 17 / 20

/-- `this.zoomHoldDuration = 2.0`. -/
def zoomHoldDuration : ℚ := 2

/-- `this.clusterTimeout = 0.5`. -/
def clusterTimeout : ℚ := 1 / 2

namespace CameraEngine

/-- The `CameraEngine(videoWidth, videoHeight)` constructor. -/
def init (videoWidth videoHeight : ℚ) : CameraState where
  videoWidth := videoWidth
  videoHeight := videoHeight
  x := videoWidth / 2
  y := videoHeight / 2
  targetX := videoWidth / 2
  targetY := videoHeight / 2
  zoom := 1
  targetZoom := 1
  velocityX := 0
  velocityY := 0
  velocityZoom := 0
  lastUpdateTime := 0
  lastTapTime := 0
  recentTaps := []

/-- `findActiveTap(currentTime, tapEvents)`: first an upcoming tap within
`lookAhead = 0.3`, else the latest past tap within `lookBehind = 0.8`
(`[...tapEvents].reverse().find(...)`). -/
def findActiveTap (currentTime : ℚ) (tapEvents : List TapEvent) : Option TapEvent :=
  match tapEvents.find? (fun t => decide (currentTime < t.time) &&
      decide (t.time - currentTime < 3 / 10)) with
  | some upcomingTap => some upcomingTap
  | none =>
    tapEvents.reverse.find? (fun t => decide (currentTime - t.time < 4 / 5) &&
      decide (t.time ≤ currentTime))

/-- `applySpringPhysics()`: spring-damper step on x, y and zoom (the zoom
spring uses half the stiffness). -/
def applySpringPhysics (s : CameraState) : CameraState :=
  let forceX := (s.targetX - s.x) * springStiffness
  let velocityX := (s.velocityX + forceX) * damping
  let forceY := (s.targetY - s.y) * springStiffness
  let velocityY := (s.velocityY + forceY) * damping
  let forceZoom := (s.targetZoom - s.zoom) * springStiffness * (1 / 2)
  let velocityZoom := (s.velocityZoom + forceZoom) * damping
  { s with
    velocityX := velocityX, x := s.x + velocityX
    velocityY := velocityY, y := s.y + velocityY
    velocityZoom := velocityZoom, zoom := s.zoom + velocityZoom }

/-- `clampPosition()`: keep the zoomed viewport inside the frame and the zoom
in `[1, 3]`. -/
def clampPosition (s : CameraState) : CameraState :=
  let viewWidth := s.videoWidth / s.zoom
  let viewHeight := s.videoHeight / s.zoom
  let minX := viewWidth / 2
  let maxX := s.videoWidth - viewWidth / 2
  let minY := viewHeight / 2
  let maxY := s.videoHeight - viewHeight / 2
  { s with
    x := max minX (min maxX s.x)
    y := max minY (min maxY s.y)
    zoom := max 1 (min 3 s.zoom) }

/-- `update(currentTime, tapEvents, targetZoomLevel)`: choose targets from the
active tap (tracking `recentTaps` for clustering and refreshing
`lastTapTime`), or re-center once `zoomHoldDuration` has elapsed since the
last tap; then apply the spring step, clamp, and record `lastUpdateTime`. -/
def update (s : CameraState) (currentTime : ℚ) (tapEvents : List TapEvent)
    (targetZoomLevel : ℚ) : CameraState :=
  let s1 :=
    match findActiveTap currentTime tapEvents with
    | some activeTap =>
      let filtered := s.recentTaps.filter
        (fun t => decide (currentTime - t.time < clusterTimeout))
      let recent :=
        if (filtered.find? (fun t => t.time == activeTap.time)).isSome then filtered
        else filtered ++ [activeTap]
      { s with targetX := activeTap.x, targetY := activeTap.y,
               targetZoom := targetZoomLevel, lastTapTime := currentTime,
               recentTaps := recent }
    | none =>
      if zoomHoldDuration < currentTime - s.lastTapTime then
        { s with targetZoom := 1, targetX := s.videoWidth / 2,
                 targetY := s.videoHeight / 2 }
      else s
  { clampPosition (applySpringPhysics s1) with lastUpdateTime := currentTime }

/-- `reset()`: back to the centered pose with zero velocities and an empty
tap cluster.  Note that `lastTapTime` and `lastUpdateTime` are *not*
cleared. -/
def reset (s : CameraState) : CameraState :=
  { s with
    x := s.videoWidth / 2, y := s.videoHeight / 2
    targetX := s.videoWidth / 2, targetY := s.videoHeight / 2
    zoom := 1, targetZoom := 1
    velocityX := 0, velocityY := 0, velocityZoom := 0
    recentTaps := [] }

/-- The body of the `generateKeyframes` loop: one `update` plus one recorded
keyframe per sample index. -/
def keyframeLoop (tapEvents : List TapEvent) (fps targetZoomLevel : ℚ) :
    List ℕ → CameraState → List Keyframe
  | [], _ => []
  | k :: ks, s =>
    let time := (k : ℚ) / fps
    let s' := update s time tapEvents targetZoomLevel
    ⟨time, s'.x, s'.y, s'.zoom⟩ :: keyframeLoop tapEvents fps targetZoomLevel ks s'

/-- `generateKeyframes(tapEvents, duration, fps, targetZoomLevel)`: reset,
then call `update` at `time = 0, 1/fps, 2/fps, …` while `time < duration`,
recording `(time, x, y, zoom)`.  The accumulated loop variable takes exactly
the values `k / fps` for `k < ⌈duration · fps⌉` (for `fps > 0`, `k / fps <
duration ↔ (k : ℤ) < ⌈duration · fps⌉`), which is how the `while` loop is
rendered as a fold over `List.range`. -/
def generateKeyframes (s : CameraState) (tapEvents : List TapEvent)
    (duration : ℚ) (fps targetZoomLevel : ℚ) : List Keyframe :=
  keyframeLoop tapEvents fps targetZoomLevel
    (List.range ⌈duration * fps⌉.toNat) (reset s)

end CameraEngine

/-! ## Concrete camera scenarios (claims C1, C6) -/

/-- The single tap `{time: 1.0, x: 300, y: 400}` of the P4 scenario. -/
def c1Tap : TapEvent := ⟨1, 300, 400⟩

/-- One C1 update step: `update` at `t = 1 + k/30` with the single tap and
`maxZoomLevel = 1.8`, on the 800×600 engine. -/
def c1Step (s : CameraState) (k : ℕ) : CameraState :=
  CameraEngine.update s (1 + (k : ℚ) / 30) [c1Tap] (9 / 5)

/-- State after the first `n` of the 60 update calls at `t = 1 + k/30`,
`k = 0, …, 59`. -/
def c1State (n : ℕ) : CameraState :=
  (List.range n).foldl c1Step (CameraEngine.init 800 600)

/-- The post-update `zoom` values along a run of `c1Step` over the given
step indices. -/
def zoomTrace : List ℕ → CameraState → List ℚ
  | [], _ => []
  | k :: ks, s => (c1Step s k).zoom :: zoomTrace ks (c1Step s k)

/-- The 60 zoom values produced by the C1 run. -/
def c1Zooms : List ℚ := zoomTrace (List.range 60) (CameraEngine.init 800 600)

/-- The exact engine state after the first 10 C1 steps. -/
def c1S10 : CameraState :=
  ⟨(800 : ℚ), (600 : ℚ), ((1298723053548122878238168113 : ℚ)/4882812500000000000000000), ((9190656249532167225181400 : ℚ)/21526577579990135479469), (300 : ℚ), (400 : ℚ), ((64579732739970406438407 : ℚ)/37252902984619140625000), ((9 : ℚ)/5), ((-32131865613189756574503387 : ℚ)/4882812500000000000000000), ((98534281308982939069976084638312254486972915946965104020615385264216967487644294474504799673902326605837 : ℚ)/12303515280959046567037899999379110932855898976796167161596368622951737938115462582196500000000000000000), ((88714740215965113524399 : ℚ)/1192092895507812500000000), ((13 : ℚ)/10), ((13 : ℚ)/10), [⟨(1 : ℚ), (300 : ℚ), (400 : ℚ)⟩]⟩

/-- The exact engine state after the first 20 C1 steps. -/
def c1S20 : CameraState :=
  ⟨(800 : ℚ), (600 : ℚ), ((1459892226494086242020812700703442547258472814238167313 : ℚ)/4768371582031250000000000000000000000000000000000000), ((4111636968338739164045785459708765146170274882048992679681230606332144509085500239753399656553906744001024362575596820569198091744432329441217116706593011 : ℚ)/10345803757896837673792247358933033316216784381156079245032482739245339060455296588145602049467943763698189785156250000000000000000000000000000000000000), (300 : ℚ), (400 : ℚ), ((2236845569975406371964680216590341491586077387449 : ℚ)/1136868377216160297393798828125000000000000000000), ((9 : ℚ)/5), ((23841114416971142227184910730867375366599047309895813 : ℚ)/4768371582031250000000000000000000000000000000000000), ((-53108064831216098316841945613223202669755672988958530123150157680066885025626182257886205581858284073260184580669537323498195450248471445445380038317489 : ℚ)/10345803757896837673792247358933033316216784381156079245032482739245339060455296588145602049467943763698189785156250000000000000000000000000000000000000), ((-6398208691117236875077701150327658041172099213 : ℚ)/568434188608080148696899414062500000000000000000), ((49 : ℚ)/30), ((49 : ℚ)/30), [⟨(1 : ℚ), (300 : ℚ), (400 : ℚ)⟩]⟩

/-- The exact engine state after the first 30 C1 steps. -/
def c1S30 : CameraState :=
  ⟨(800 : ℚ), (600 : ℚ), ((1406373847105351647595410698760357627113514965136069329569546412686981590671446513 : ℚ)/4656612873077392578125000000000000000000000000000000000000000000000000000000000), ((4007533769892706266899650142888054500984426369822069960341862362051666038168231368929059400286124727829201012140970343437418291743361335718641249340156889074997169597674599881835411 : ℚ)/10103323982321130540812741561458040347867953497222733637727033925044276426225875574360939501433538831736513462066650390625000000000000000000000000000000000000000000000000000000000), (300 : ℚ), (400 : ℚ), ((969136177738388831873458645820623716043145216449132283723834472251390437 : ℚ)/542101086242752217003726400434970855712890625000000000000000000000000000), ((9 : ℚ)/5), ((-11656677031979513352906158126575680092991099959911299464884392190719499412424987 : ℚ)/4656612873077392578125000000000000000000000000000000000000000000000000000000000), ((23475128106781737918565826070210189932942590303363784267674009376106129468061989023538761678407823767583390211182041937339527455882168288188602529217386720586117862834921663724911 : ℚ)/10103323982321130540812741561458040347867953497222733637727033925044276426225875574360939501433538831736513462066650390625000000000000000000000000000000000000000000000000000000000), ((-14039142160175583251004563706915292187162854852124159144584173301636251 : ℚ)/1084202172485504434007452800869941711425781250000000000000000000000000000), ((59 : ℚ)/30), ((53 : ℚ)/30), [⟨(1 : ℚ), (300 : ℚ), (400 : ℚ)⟩]⟩

/-- The exact engine state after the first 40 C1 steps. -/
def c1S40 : CameraState :=
  ⟨(800 : ℚ), (600 : ℚ), ((1351758541405936552098793692327236224779951961832685164890096464080514103693352652722736675333766543090005713 : ℚ)/4547473508864641189575195312500000000000000000000000000000000000000000000000000000000000000000000000000000), ((3976696793453404747897817166045290744157947309011323802260821681200143010091679337059997735499346839501329332221161856988177781507408843447490856281190505058710988958775335943937524537782272705573051773237811 : ℚ)/9866527326485479043762442931111367527214798337131575818092806567426051197486206615586854981868690265367688927799463272094726562500000000000000000000000000000000000000000000000000000000000000000000000000000), (300 : ℚ), (400 : ℚ), ((1828966506317468427119317383865968976936854430767109171372307776810958635420009409163466259209299 : ℚ)/1033975765691284593589260865087453566957265138626098632812500000000000000000000000000000000000000), ((9 : ℚ)/5), ((4172723481264134364165492302975473652487278220767199061805074523117138848417184774939359256039202810534213 : ℚ)/4547473508864641189575195312500000000000000000000000000000000000000000000000000000000000000000000000000000), ((-7446756874104273054803295347572531346451036106342626002675981651995187965699022284870759762747668126968266380001748177361992435540231423835022032219469665066350674540186199472661032680009421697922798072689 : ℚ)/9866527326485479043762442931111367527214798337131575818092806567426051197486206615586854981868690265367688927799463272094726562500000000000000000000000000000000000000000000000000000000000000000000000000000), ((1079079063546371726162920712512610778980179103555656829469690342494652562923884569128617052731 : ℚ)/258493941422821148397315216271863391739316284656524658203125000000000000000000000000000000000000), ((23 : ℚ)/10), ((53 : ℚ)/30), [⟨(1 : ℚ), (300 : ℚ), (400 : ℚ)⟩]⟩

/-- The exact engine state after the first 50 C1 steps. -/
def c1S50 : CameraState :=
  ⟨(800 : ℚ), (600 : ℚ), ((1339767103470890208427767375522758929692379151055728794750459649751162602285212469625480177226852301344199423623088500356410043845844913 : ℚ)/4440892098500626161694526672363281250000000000000000000000000000000000000000000000000000000000000000000000000000000000000000000000000), ((3838134513147013566458685097759603035115479160970901820337651191540894858716707364006788776382551465420062669393243437736120473416535113948004506128512502153647451008363757699177891750146624420814531166795810790772607923167800124800211 : ℚ)/9635280592270975628674260674913444850795701501105054509856256413502003122545123648034038068231142837273133718554163351655006408691406250000000000000000000000000000000000000000000000000000000000000000000000000000000000000000000000000), (300 : ℚ), (400 : ℚ), ((445490028330366219368092520366436093918672241787799767907980339738043906914637205668767224952653797801012814030305918181 : ℚ)/246519032881566189191165176650870696772877010971569688990712165832519531250000000000000000000000000000000000000000000000), ((9 : ℚ)/5), ((-907477567062665916273347509491320881285468904504940963487842861772332569453058571914341703220693672111273482872820324657609669226587 : ℚ)/4440892098500626161694526672363281250000000000000000000000000000000000000000000000000000000000000000000000000000000000000000000000000), ((1117773768231320372924785294250489990950511010463912087299909748612590545053911206829996612155927641312329300613887794181797224327346265375027406839635269815012667728223556379155794451959649733716844797100538412572671830422320289711 : ℚ)/9635280592270975628674260674913444850795701501105054509856256413502003122545123648034038068231142837273133718554163351655006408691406250000000000000000000000000000000000000000000000000000000000000000000000000000000000000000000000000), ((1891200489245685973148138014347112410283407292272343548785915984376505035235155184484228944658670705076853222592343099 : ℚ)/986076131526264756764660706603482787091508043886278755962848663330078125000000000000000000000000000000000000000000000000), ((79 : ℚ)/30), ((53 : ℚ)/30), [⟨(1 : ℚ), (300 : ℚ), (400 : ℚ)⟩]⟩

/-- The exact engine state after the first 60 C1 steps. -/
def c1S60 : CameraState :=
  ⟨(800 : ℚ), (600 : ℚ), ((1297821997640349740346459596959427989220839399604365951826564986690766582106212038776888603909401776224617463980479170758119337369755446400892623266028622090964113 : ℚ)/4336808689942017736029811203479766845703125000000000000000000000000000000000000000000000000000000000000000000000000000000000000000000000000000000000000000000000), ((3769987846466429993762525114050420495609971748644620237709850171716196700721500461726264542320905335143386721501093888765747624879234014631909516530221118306949349318730722521217819438446534350006747884148486974625282313643305711085555921999661784008022280522611 : ℚ)/9409453703389624637377207690345160987105177247172904794781500403810549924360472312533240301006975427024544647025550148100592195987701416015625000000000000000000000000000000000000000000000000000000000000000000000000000000000000000000000000000000000000000000000), (300 : ℚ), (400 : ℚ), ((1697462637564692760112514719892650139410689697510856560404970478770670012383855785296234675822334806578691558645831860566118054050639128673171149 : ℚ)/940395480657830006374989229777796542254932445417670017207001365022733807563781738281250000000000000000000000000000000000000000000000000000000000), ((9 : ℚ)/5), ((-110118045675006453377188328260233618399957872349126339863733066834573589294384674354335370317002860312685405711907057485348149147332486572741053150943699707387 : ℚ)/4336808689942017736029811203479766845703125000000000000000000000000000000000000000000000000000000000000000000000000000000000000000000000000000000000000000000000), ((568796113068052198070916373058348808308284579637480947759413822143905716189233090240466298744186022492252835968210095379877082189046905953180053357050268712725686521851046911698669009548944688454504465420401597042374284098866429096116967178634855342362812111 : ℚ)/9409453703389624637377207690345160987105177247172904794781500403810549924360472312533240301006975427024544647025550148100592195987701416015625000000000000000000000000000000000000000000000000000000000000000000000000000000000000000000000000000000000000000000000), ((-522827198676561559234420923549393809874835799119135172418665593033660772177131984590104527472642185819500538423474280690694476638853951119863 : ℚ)/470197740328915003187494614888898271127466222708835008603500682511366903781890869140625000000000000000000000000000000000000000000000000000000000), ((89 : ℚ)/30), ((53 : ℚ)/30), [⟨(1 : ℚ), (300 : ℚ), (400 : ℚ)⟩]⟩

/-- The exact zoom values of C1 steps 0 – 9. -/
def c1Z0 : List ℚ :=
  [((642 : ℚ)/625),
  ((84109 : ℚ)/78125),
  ((44655347 : ℚ)/39062500),
  ((5967301269 : ℚ)/4882812500),
  ((3195408305377 : ℚ)/2441406250000),
  ((213510781608727 : ℚ)/152587890625000),
  ((227317892084545107 : ℚ)/152587890625000000),
  ((30082938320545745539 : ℚ)/19073486328125000000),
  ((15822693659704703140037 : ℚ)/9536743164062500000000),
  ((64579732739970406438407 : ℚ)/37252902984619140625000)]

/-- The exact zoom values of C1 steps 10 – 19. -/
def c1Z10 : List ℚ :=
  [((1072326156423306837659888167 : ℚ)/596046447753906250000000000),
  ((138192247175458344016002713909 : ℚ)/74505805969238281250000000000),
  ((70791111037986692022098905357497 : ℚ)/37252902984619140625000000000000),
  ((4506551891129545494473778669868097 : ℚ)/2328306436538696289062500000000000),
  ((4565612814314379817181002717363436027 : ℚ)/2328306436538696289062500000000000000),
  ((575384514656371036323576758168014671879 : ℚ)/291038304567337036132812500000000000000),
  ((288806730667293986499730989556624783131757 : ℚ)/145519152283668518066406250000000000000000),
  ((9026261758831521948489231791044511581834241 : ℚ)/4547473508864641189575195312500000000000000),
  ((17997135898861126765718684951127974461347372687 : ℚ)/9094947017729282379150390625000000000000000000),
  ((2236845569975406371964680216590341491586077387449 : ℚ)/1136868377216160297393798828125000000000000000000)]

/-- The exact zoom values of C1 steps 20 – 29. -/
def c1Z20 : List ℚ :=
  [((1109746105253486131415374742775981431101079093806817 : ℚ)/568434188608080148696899414062500000000000000000000),
  ((68714233265224850729098855310682009059717296542959667 : ℚ)/35527136788005009293556213378906250000000000000000000),
  ((68004046539482784761367378293013577425201783663527602147 : ℚ)/35527136788005009293556213378906250000000000000000000000),
  ((8407813876460690071959346528102751425425842133931301068619 : ℚ)/4440892098500626161694526672363281250000000000000000000000),
  ((4157471325630402805439297191875268399822819900484717506246677 : ℚ)/2220446049250313080847263336181640625000000000000000000000000),
  ((64258411375986521478795217846502101008160281755616313080951413 : ℚ)/34694469519536141888238489627838134765625000000000000000000000),
  ((254400642199433390517246581379512403373313979459546280700676348407 : ℚ)/138777878078144567552953958511352539062500000000000000000000000000),
  ((31500771711774913960707104170997769561102278591180072659649180563389 : ℚ)/17347234759768070944119244813919067382812500000000000000000000000000),
  ((15618491981095625975983374842785301794187626302003109812738024942435337 : ℚ)/8673617379884035472059622406959533691406250000000000000000000000000000),
  ((969136177738388831873458645820623716043145216449132283723834472251390437 : ℚ)/542101086242752217003726400434970855712890625000000000000000000000000000)]

/-- The exact zoom values of C1 steps 30 – 39. -/
def c1Z30 : List ℚ :=
  [((963395498755265424388712167993903726887762972027709018440775826541647755467 : ℚ)/542101086242752217003726400434970855712890625000000000000000000000000000000),
  ((119867132642498492409761187979502403220141628683819642040398699948243806559759 : ℚ)/67762635780344027125465800054371356964111328125000000000000000000000000000000),
  ((59732507222893682667452078242375810156077997596561193368015803767980339347076797 : ℚ)/33881317890172013562732900027185678482055664062500000000000000000000000000000000),
  ((1862632449955987364999491333704053543686851815167399352785851630145271202074809011 : ℚ)/1058791184067875423835403125849552452564239501953125000000000000000000000000000000),
  ((3721387652953827169847214209990892776322865085409743551642373545513669478122251487327 : ℚ)/2117582368135750847670806251699104905128479003906250000000000000000000000000000000000),
  ((465145106721109946477607385081319434716067228044822236255825323425732841092854172785729 : ℚ)/264697796016968855958850781462388113141059875488281250000000000000000000000000000000000),
  ((232752790397715009995875084660820944242153267592247370589288299065151728687066978625195057 : ℚ)/132348898008484427979425390731194056570529937744140625000000000000000000000000000000000000),
  ((14568259347743623618241678062327446953221137138650823801963861790398692614453163109338712407 : ℚ)/8271806125530276748714086920699628535658121109008789062500000000000000000000000000000000000),
  ((14597201520506263521717325608127348270567469714823092352435432123527840201346510967095614327987 : ℚ)/8271806125530276748714086920699628535658121109008789062500000000000000000000000000000000000000),
  ((1828966506317468427119317383865968976936854430767109171372307776810958635420009409163466259209299 : ℚ)/1033975765691284593589260865087453566957265138626098632812500000000000000000000000000000000000000)]

/-- The exact zoom values of C1 steps 40 – 49. -/
def c1Z40 : List ℚ :=
  [((916864915389519390796938644090210533333659307778516964546985629781933930264835148393472852187734117 : ℚ)/516987882845642296794630432543726783478632569313049316406250000000000000000000000000000000000000000),
  ((7182465465567159693166891187472356191286363149154093968344981238588551541464348676469324526632602199 : ℚ)/4038967834731580443708050254247865495926816947758197784423828125000000000000000000000000000000000000),
  ((57615888305576060171480691108785711110463402682799377065811182102049236749074690313343101450445069781447 : ℚ)/32311742677852643549664402033982923967414535582065582275390625000000000000000000000000000000000000000000),
  ((7220895831119252642889192047902823027832504929417280425252642565614907931795258326129958181613318971238469 : ℚ)/4038967834731580443708050254247865495926816947758197784423828125000000000000000000000000000000000000000000),
  ((3619321764165339564710941002121507090703906806988574571711549541031970699775501637229649764349999293745157977 : ℚ)/2019483917365790221854025127123932747963408473879098892211914062500000000000000000000000000000000000000000000),
  ((226712500702585039866539286079621360879052547818144255856198126047045182486207886537738234054621134666553597577 : ℚ)/126217744835361888865876570445245796747713029617443680763244628906250000000000000000000000000000000000000000000),
  ((227157958538534915620958248894136369923674415129069497775390298823173107969379997474707489312098268074249815671707 : ℚ)/126217744835361888865876570445245796747713029617443680763244628906250000000000000000000000000000000000000000000000),
  ((28442219136588283809961679116915316724394763705194392968131368351494557369889671482123912705542811294533388414921239 : ℚ)/15777218104420236108234571305655724593464128702180460095405578613281250000000000000000000000000000000000000000000000),
  ((14240551302657753531993775547611178106115244478871413824665083543742392980986509339924677366927652163991795223189050637 : ℚ)/7888609052210118054117285652827862296732064351090230047702789306640625000000000000000000000000000000000000000000000000),
  ((445490028330366219368092520366436093918672241787799767907980339738043906914637205668767224952653797801012814030305918181 : ℚ)/246519032881566189191165176650870696772877010971569688990712165832519531250000000000000000000000000000000000000000000000)]

/-- The exact zoom values of C1 steps 50 – 59. -/
def c1Z50 : List ℚ :=
  [((891664424566900653914741325626118629510245365376165027538915199765161233424054022305464075910007072401214419326152779742767 : ℚ)/493038065763132378382330353301741393545754021943139377981424331665039062500000000000000000000000000000000000000000000000000),
  ((111512934559571589517551447542019580601732864828347026812445824289594818596024856858727309929132673402360450205596673388145609 : ℚ)/61629758220391547297791294162717674193219252742892422247678041458129882812500000000000000000000000000000000000000000000000000),
  ((55769942626518387390028495045645387823954165362462841378474886536046679173600200092746618382933341728028772759979913012601716097 : ℚ)/30814879110195773648895647081358837096609626371446211123839020729064941406250000000000000000000000000000000000000000000000000000),
  ((3485693076467715456415299712432053960179800367507346354299991668437609118125618700216797016470347648881066249671558490057677037947 : ℚ)/1925929944387235853055977942584927318538101648215388195239938795566558837890625000000000000000000000000000000000000000000000000000),
  ((3485107337428080772961946328562896315433484253383284288725990776943891728297519179666539280316817551066487756529617339150275333258627 : ℚ)/1925929944387235853055977942584927318538101648215388195239938795566558837890625000000000000000000000000000000000000000000000000000000),
  ((435497840296041922494114453398646424321113614079197703090011323380851628632553148136269733631943146398479431704620046418484315367839579 : ℚ)/240741243048404481631997242823115914817262706026923524404992349445819854736328125000000000000000000000000000000000000000000000000000000),
  ((217652393725220451698991640611454433519575549427348396413954787497711118287484192712948018870973444529412161922159081005625381274633778357 : ℚ)/120370621524202240815998621411557957408631353013461762202496174722909927368164062500000000000000000000000000000000000000000000000000000000),
  ((3399013233069745318176707691974435436382564852825461311269997618000367753065122603653108835564249031969667618377771427786872786928173756583 : ℚ)/1880790961315660012749978459555593084509864890835340034414002730045467615127563476562500000000000000000000000000000000000000000000000000000),
  ((13588066335696367065847868493917991416243514952872758645998462479653898671425680394123319079018240727602644477781430473019995544031334692603287 : ℚ)/7523163845262640050999913838222372338039459563341360137656010920181870460510253906250000000000000000000000000000000000000000000000000000000000),
  ((1697462637564692760112514719892650139410689697510856560404970478770670012383855785296234675822334806578691558645831860566118054050639128673171149 : ℚ)/940395480657830006374989229777796542254932445417670017207001365022733807563781738281250000000000000000000000000000000000000000000000000000000000)]

/-- Executable check that a list of rationals is non-decreasing. -/
def isChainLe : List ℚ → Bool
  | [] => true
  | [_] => true
  | a :: b :: rest => decide (a ≤ b) && isChainLe (b :: rest)

/-- The property asserted by claim C1 for the 800×600 engine: final-state
tolerance bounds after the 60 update calls, plus monotone (non-decreasing)
zoom across all 60 steps (initial zoom 1 followed by the 60 post-step
values). -/
def c1ClaimProp : Prop :=
  |(c1State 60).x - 300| < 5 ∧ |(c1State 60).y - 400| < 5 ∧
    |(c1State 60).zoom - 9 / 5| < 1 / 20 ∧
    List.Chain' (· ≤ ·) ((CameraEngine.init 800 600).zoom :: c1Zooms)

/-! ## Claim C2: `generateKeyframes` is insensitive to residual state

`reset()` clears every field except `lastTapTime` and `lastUpdateTime`.
`KfEq` relates two engine states that agree on everything an observer of
keyframes can see; the residual `lastTapTime` values may differ as long as
the targets still sit at their reset values (in which case the
re-centering branch of `update` that reads `lastTapTime` is a no-op). -/

/-- Keyframe-observable equivalence of two engine states: all fields agree
except possibly `lastTapTime` / `lastUpdateTime`, and either the
`lastTapTime`s agree too, or the targets are at their reset values
(centered, zoom 1). -/
def KfEq (a b : CameraState) : Prop :=
  a.videoWidth = b.videoWidth ∧ a.videoHeight = b.videoHeight ∧
  a.x = b.x ∧ a.y = b.y ∧ a.targetX = b.targetX ∧ a.targetY = b.targetY ∧
  a.zoom = b.zoom ∧ a.targetZoom = b.targetZoom ∧
  a.velocityX = b.velocityX ∧ a.velocityY = b.velocityY ∧
  a.velocityZoom = b.velocityZoom ∧ a.recentTaps = b.recentTaps ∧
  (a.lastTapTime = b.lastTapTime ∨
    (a.targetX = a.videoWidth / 2 ∧ a.targetY = a.videoHeight / 2 ∧
      a.targetZoom = 1))

/-! ## Circle-detection pipeline (`src/unnamed/part_005`)

The per-pixel scan `findAllGreyCircles` consumes a canvas and is abstracted
as a per-frame candidate list supplied to the pipeline; everything
downstream of it (stationary tracking, selection, tap synthesis,
clustering, the sampling loop) is embedded below.  The module-level
calibration variables `calibratedTargetPos` / `calibratedExcludePos` are
passed as explicit `Option` parameters. -/

namespace CircleDetector

/-- A detected blob: the fields of the objects produced by
`findAllGreyCircles`. -/
structure Circle where
  x : ℚ
  y : ℚ
  radius : ℚ
  brightness : ℚ
  greyScore : ℚ
  pixelCount : ℚ
  deriving DecidableEq, Repr

/-- One entry of the position history (`{x, y, frame}`). -/
structure HistEntry where
  x : ℚ
  y : ℚ
  frame : ℕ
  deriving DecidableEq, Repr

/-- `HISTORY_LENGTH = 10`. -/
def HISTORY_LENGTH : ℕ := 10

/-- `STATIONARY_THRESHOLD = 5`. -/
def STATIONARY_THRESHOLD : ℕ := 5

/-- `STATIONARY_GRID_SIZE = 50`. -/
def STATIONARY_GRID_SIZE : ℚ := 50

/-- Squared Euclidean distance; every `Math.sqrt(d) < c` comparison of the
source is rendered as `d < c ^ 2`. -/
def distSq (x1 y1 x2 y2 : ℚ) : ℚ := (x1 - x2) ^ 2 + (y1 - y2) ^ 2

/-- The result of `calculateVelocity`, with the squared magnitude in place
of `Math.sqrt(vx*vx + vy*vy)`. -/
structure Velocity where
  x : ℚ
  y : ℚ
  sqMagnitude : ℚ
  deriving DecidableEq, Repr

/-- `calculateVelocity(history)`: central difference over the last three
samples; zero if fewer than three. -/
def calculateVelocity (history : List HistEntry) : Velocity :=
  if history.length < 3 then ⟨0, 0, 0⟩
  else
    match history.drop (history.length - 3) with
    | [r0, _, r2] =>
      let vx := (r2.x - r0.x) / 2
      let vy := (r2.y - r0.y) / 2
      ⟨vx, vy, vx ^ 2 + vy ^ 2⟩
    | _ => ⟨0, 0, 0⟩

/-- `predictNextPosition(history)`: last position plus velocity, `null` if
fewer than two samples. -/
def predictNextPosition (history : List HistEntry) : Option (ℚ × ℚ) :=
  if history.length < 2 then none
  else
    match history.getLast? with
    | some last =>
      let v := calculateVelocity history
      some (last.x + v.x, last.y + v.y)
    | none => none

/-- A stationary-map key: the pair `(⌊x/50⌋, ⌊y/50⌋)` (the source formats it
as the string `"gx,gy"`, on which equality agrees with pair equality). -/
abbrev StatKey := ℤ × ℤ

/-- A stationary-map entry `{x, y, frameCount, lastSeen}`. -/
structure StatEntry where
  x : ℚ
  y : ℚ
  frameCount : ℕ
  lastSeen : ℕ
  deriving DecidableEq, Repr

/-- The stationary map, as an insertion-ordered association list — the
shape that models a JavaScript `Map`. -/
abbrev StatMap := List (StatKey × StatEntry)

/-- `Map.get`. -/
def mapGet (m : StatMap) (k : StatKey) : Option StatEntry :=
  (m.find? (fun p => decide (p.1 = k))).map (·.2)

/-- `Map.set`: replace in place when the key is present (also how mutating
a retrieved entry object is modelled), append otherwise. -/
def mapSet (m : StatMap) (k : StatKey) (v : StatEntry) : StatMap :=
  if m.any (fun p => decide (p.1 = k)) then
    m.map (fun p => if p.1 = k then (k, v) else p)
  else m ++ [(k, v)]

/-- `getStationaryKey(x, y)`. -/
def getStationaryKey (x y : ℚ) : StatKey := (⌊x / 50⌋, ⌊y / 50⌋)

/-- `isInStationaryZone(x, y, stationaryMap)`. -/
def isInStationaryZone (x y : ℚ) (stationaryMap : StatMap) : Bool :=
  match mapGet stationaryMap (getStationaryKey x y) with
  | some stationary => decide (STATIONARY_THRESHOLD ≤ stationary.frameCount)
  | none => false

/-- `updateStationaryTracking(circles, frameIndex, stationaryMap)`: bump or
restart the entry of each candidate's grid cell, then evict entries not
seen for more than 20 frames. -/
def updateStationaryTracking (circles : List Circle) (frameIndex : ℕ)
    (stationaryMap : StatMap) : StatMap :=
  let marked := circles.foldl
    (fun acc circle =>
      let key := getStationaryKey circle.x circle.y
      match mapGet acc key with
      | some existing =>
        if distSq circle.x circle.y existing.x existing.y <
            STATIONARY_GRID_SIZE ^ 2 then
          mapSet acc key
            { existing with frameCount := existing.frameCount + 1,
                            lastSeen := frameIndex }
        else mapSet acc key ⟨circle.x, circle.y, 1, frameIndex⟩
      | none => mapSet acc key ⟨circle.x, circle.y, 1, frameIndex⟩)
    stationaryMap
  marked.filter (fun p => decide ((frameIndex : ℤ) - p.2.lastSeen ≤ 20))

/-- The body of the `selectBestCircle` scoring loop for one candidate:
`none` models a `continue` (hard skip), `some s` the final multiplicative
score. -/
def scoreCircle (circle : Circle) (lastPosition : Option (ℚ × ℚ))
    (predicted : Option (ℚ × ℚ)) (velocitySq : ℚ) (stationaryMap : StatMap)
    (calibratedTargetPos calibratedExcludePos : Option (ℚ × ℚ)) : Option ℚ :=
  let stationaryStep : Option ℚ :=
    if isInStationaryZone circle.x circle.y stationaryMap then
      match mapGet stationaryMap (getStationaryKey circle.x circle.y) with
      | some stationary =>
        if STATIONARY_THRESHOLD * 2 ≤ stationary.frameCount then none
        else some (circle.pixelCount * (1 / 10))
      | none => some (circle.pixelCount * (1 / 10))
    else some circle.pixelCount
  let excludeStep : ℚ → Option ℚ := fun score =>
    match calibratedExcludePos with
    | some p =>
      let d := distSq circle.x circle.y p.1 p.2
      if d < 60 ^ 2 then none
      else if d < 120 ^ 2 then some (score * (1 / 5))
      else some score
    | none => some score
  let trajectoryStep : ℚ → Option ℚ := fun score =>
    match predicted with
    | some pr =>
      if 5 ^ 2 < velocitySq then
        let d := distSq circle.x circle.y pr.1 pr.2
        if d < 50 ^ 2 then some (score * 3)
        else if d < 100 ^ 2 then some (score * (3 / 2))
        else if 200 ^ 2 < d then
          if isInStationaryZone circle.x circle.y stationaryMap then none
          else some (score * (3 / 10))
        else some score
      else some score
    | none => some score
  let continuityStep : ℚ → Option ℚ := fun score =>
    match lastPosition with
    | some lp =>
      let d := distSq circle.x circle.y lp.1 lp.2
      if d < 60 ^ 2 then some (score * 2)
      else if d < 120 ^ 2 then some (score * (6 / 5))
      else if 250 ^ 2 < d then
        if isInStationaryZone circle.x circle.y stationaryMap then none
        else some score
      else some score
    | none => some score
  let targetStep : ℚ → ℚ := fun score =>
    match calibratedTargetPos with
    | some p =>
      if distSq circle.x circle.y p.1 p.2 < 100 ^ 2 then score * (3 / 2)
      else score
    | none => score
  (((stationaryStep.bind excludeStep).bind trajectoryStep).bind
    continuityStep).map targetStep

/-- `selectBestCircle(candidates, lastPosition, history, stationaryMap,
frameIndex)`: the highest strictly positive score wins, starting from
`bestScore = 0` (ties keep the earlier candidate); `frameIndex` is a
parameter the source never reads. -/
def selectBestCircle (candidates : List Circle) (lastPosition : Option (ℚ × ℚ))
    (history : List HistEntry) (stationaryMap : StatMap) (frameIndex : ℕ)
    (calibratedTargetPos calibratedExcludePos : Option (ℚ × ℚ)) :
    Option Circle :=
  let predicted :=
    if 2 ≤ history.length then predictNextPosition history else none
  let velocitySq :=
    if 3 ≤ history.length then (calculateVelocity history).sqMagnitude else 0
  (candidates.foldl
    (fun best circle =>
      match scoreCircle circle lastPosition predicted velocitySq stationaryMap
          calibratedTargetPos calibratedExcludePos with
      | some score => if best.1 < score then (score, some circle) else best
      | none => best)
    ((0 : ℚ), (none : Option Circle))).2

/-- One entry of the per-frame track `frameData`: the sample time and the
selected position, `none` when the frame's selection failed (the debug-only
`radius`/`brightness`/`greyScore` fields are not modelled). -/
structure FrameSample where
  time : ℚ
  pos : Option (ℚ × ℚ)
  deriving DecidableEq, Repr

/-- `movementThreshold = 15`. -/
def movementThreshold : ℚ := 15

/-- `minPauseFrames = 2`. -/
def minPauseFrames : ℕ := 2

/-- `Math.round`: half-way cases round toward positive infinity. -/
def jsRound (q : ℚ) : ℤ := ⌊q + 1 / 2⌋

/-- The `detectTapsFromMovement` loop: `rest` is the not-yet-visited tail,
`prev` the sample at index `i - 1`, and `pause` the open pause as
`(pauseStart, frameData[pauseStart].time, pausePosition.x, pausePosition.y)`
(`pausePosition` is only ever read while `pauseStart` is set, so the two
variables travel together). -/
def tapsLoop : List FrameSample → FrameSample → ℕ →
    Option (ℕ × ℚ × ℚ × ℚ) → List TapEvent
  | [], _, i, pause =>
    match pause with
    | some (pauseStart, t0, px, py) =>
      if minPauseFrames ≤ i - pauseStart then
        [⟨t0, ((jsRound px : ℤ) : ℚ), ((jsRound py : ℤ) : ℚ)⟩]
      else []
    | none => []
  | curr :: rest, prev, i, pause =>
    match prev.pos, curr.pos with
    | some (pxv, pyv), some (cx, cy) =>
      if distSq cx cy pxv pyv < movementThreshold ^ 2 then
        match pause with
        | none => tapsLoop rest curr (i + 1) (some (i, curr.time, cx, cy))
        | some _ => tapsLoop rest curr (i + 1) pause
      else
        match pause with
        | some (pauseStart, t0, qx, qy) =>
          if minPauseFrames ≤ i - pauseStart then
            ⟨t0, ((jsRound qx : ℤ) : ℚ), ((jsRound qy : ℤ) : ℚ)⟩ ::
              tapsLoop rest curr (i + 1) none
          else tapsLoop rest curr (i + 1) none
        | none => tapsLoop rest curr (i + 1) none
    | _, _ =>
      match pause with
      | some (pauseStart, t0, qx, qy) =>
        if minPauseFrames ≤ i - pauseStart then
          ⟨t0, ((jsRound qx : ℤ) : ℚ), ((jsRound qy : ℤ) : ℚ)⟩ ::
            tapsLoop rest curr (i + 1) none
        else tapsLoop rest curr (i + 1) none
      | none => tapsLoop rest curr (i + 1) none

/-- `detectTapsFromMovement(frameData)`: a pause opens when consecutive
selected positions move less than 15 px, closes on movement or track loss
(emitting a tap at the pause's first frame time and rounded position once it
spans at least 2 frames), and a still-open pause is flushed at track end. -/
def detectTapsFromMovement (frameData : List FrameSample) : List TapEvent :=
  match frameData with
  | [] => []
  | f0 :: rest => tapsLoop rest f0 1 none

/-- The `clusterTaps` loop over one open cluster, carrying only the
cluster's observable members: its first element (which the cluster emits)
and its last (against which the next tap is compared). -/
def clusterGo (distThreshold timeThreshold : ℚ) :
    TapEvent → TapEvent → List TapEvent → List TapEvent
  | first, _, [] => [first]
  | first, last, tap :: rest =>
    if distSq tap.x tap.y last.x last.y < distThreshold ^ 2 ∧
        tap.time - last.time < timeThreshold then
      clusterGo distThreshold timeThreshold first tap rest
    else first :: clusterGo distThreshold timeThreshold tap tap rest

/-- `clusterTaps(taps, distThreshold, timeThreshold)`: greedy single pass;
each cluster emits its first member (the source re-wraps it as
`{time, x, y, type: 'tap'}`; the constant `type` field is dropped here). -/
def clusterTaps (taps : List TapEvent) (distThreshold timeThreshold : ℚ) :
    List TapEvent :=
  match taps with
  | [] => []
  | t :: ts => clusterGo distThreshold timeThreshold t t ts

/-- The mutable tracking state of the `detectCircles` sampling loop. -/
structure DetectState where
  history : List HistEntry
  statMap : StatMap
  lastValid : Option (ℚ × ℚ)
  deriving DecidableEq, Repr

/-- What `detectCircles` produces: the clustered taps, the per-frame debug
track, and the sequence of values passed to `onProgress`. -/
structure DetectResult where
  taps : List TapEvent
  debugData : List FrameSample
  progress : List ℚ
  deriving DecidableEq, Repr

/-- One iteration of the `detectCircles` sampling loop at frame index `k`
(sample time `k/10`): update stationary tracking with all candidates, select
the best circle, and update history (capped at `HISTORY_LENGTH` by a
`shift()`) and the last valid position on success. -/
def detectStep (candidatesAt : ℕ → List Circle)
    (calibratedTargetPos calibratedExcludePos : Option (ℚ × ℚ))
    (st : DetectState) (k : ℕ) : DetectState × FrameSample :=
  let candidates := candidatesAt k
  let m' := updateStationaryTracking candidates k st.statMap
  match selectBestCircle candidates st.lastValid st.history m' k
      calibratedTargetPos calibratedExcludePos with
  | some circle =>
    let hist' := st.history ++ [⟨circle.x, circle.y, k⟩]
    let hist'' := if HISTORY_LENGTH < hist'.length then hist'.drop 1 else hist'
    (⟨hist'', m', some (circle.x, circle.y)⟩,
      ⟨(k : ℚ) / 10, some (circle.x, circle.y)⟩)
  | none => (⟨st.history, m', st.lastValid⟩, ⟨(k : ℚ) / 10, none⟩)

/-- The `detectCircles` sampling loop over the given frame indices. -/
def detectLoop (candidatesAt : ℕ → List Circle)
    (calibratedTargetPos calibratedExcludePos : Option (ℚ × ℚ)) :
    List ℕ → DetectState → List FrameSample
  | [], _ => []
  | k :: ks, st =>
    let step := detectStep candidatesAt calibratedTargetPos
      calibratedExcludePos st k
    step.2 :: detectLoop candidatesAt calibratedTargetPos calibratedExcludePos
      ks step.1

/-- The values `detectCircles` passes to `onProgress`: after the `k`-th
sampled frame, `(frameIndex / totalFrames) * 60` with `frameIndex = k + 1`
and `totalFrames = ⌊duration · 10⌋`, then `80` and `100`.  (For
`0 < duration < 0.1` the source divides by `totalFrames = 0`, yielding
`Infinity`; rational division by zero renders that value as `0` here, and no
theorem below relies on that case.) -/
def progressList (duration : ℚ) : List ℚ :=
  let totalFrames : ℚ := ((⌊duration * 10⌋ : ℤ) : ℚ)
  ((List.range ⌈duration * 10⌉.toNat).map
    (fun (k : ℕ) => ((k : ℚ) + 1) / totalFrames * 60)) ++ [80, 100]

/-- `detectCircles(video, canvas, onProgress)`, abstracted over the
per-frame candidate lists: the `while (currentTime < duration)` loop at
`fps = 10` visits exactly the sample times `k/10` for
`k < ⌈duration · 10⌉`, then taps are synthesized from the track and
clustered with thresholds 80 px / 0.5 s. -/
def detectCircles (candidatesAt : ℕ → List Circle) (duration : ℚ)
    (calibratedTargetPos calibratedExcludePos : Option (ℚ × ℚ)) :
    DetectResult :=
  let frameData := detectLoop candidatesAt calibratedTargetPos
    calibratedExcludePos (List.range ⌈duration * 10⌉.toNat) ⟨[], [], none⟩
  let taps := detectTapsFromMovement frameData
  ⟨clusterTaps taps 80 (1 / 2), frameData, progressList duration⟩

end CircleDetector

/-- The C3 synthetic track: 30 frames at 10 fps, frames 0–4 moving linearly
from (50,50) to (250,250), frames 5–7 holding at (250,250), frames 8–29
with no candidate. -/
def c3Track : List CircleDetector.FrameSample :=
  (List.range 30).map (fun i =>
    if i ≤ 4 then ⟨(i : ℚ) / 10, some ((50 + 50 * i : ℚ), (50 + 50 * i : ℚ))⟩
    else if i ≤ 7 then ⟨(i : ℚ) / 10, some (250, 250)⟩
    else ⟨(i : ℚ) / 10, none⟩)

/-- The C4 counterexample input: three taps, each within 80 px and 0.5 s of
the previous one's cluster-last, but with the second 79√2 px from the third,
so one pass splits after the second while the two cluster firsts remain
mutually mergeable. -/
def c4Taps : List TapEvent := [⟨0, 0, 0⟩, ⟨1 / 10, 79, 0⟩, ⟨2 / 10, 0, 79⟩]

/-- The stationary map accumulated by the C5 scenario: at every frame `j`
the candidate list is `[fixed, movC j]`, exactly as the detection loop
feeds `updateStationaryTracking`. -/
def scenarioMap (fixed : CircleDetector.Circle)
    (movC : ℕ → CircleDetector.Circle) : ℕ → CircleDetector.StatMap
  | 0 => CircleDetector.updateStationaryTracking [fixed, movC 0] 0 []
  | i + 1 => CircleDetector.updateStationaryTracking [fixed, movC (i + 1)]
      (i + 1) (scenarioMap fixed movC i)

/-- The C5 concrete fixed candidate: parked at (500, 500) with a large pixel
count (like a menu glyph). -/
def c5Fixed : CircleDetector.Circle := ⟨500, 500, 30, 150, 1, 1000⟩

/-- The C5 concrete moving candidate: 30 px per frame rightward from
(100, 100), with a small pixel count. -/
def c5Mov (k : ℕ) : CircleDetector.Circle :=
  ⟨100 + 30 * k, 100, 30, 150, 1, 10⟩

/-- The C5 per-frame candidate stream: both candidates present on every
frame. -/
def c5Cand (k : ℕ) : List CircleDetector.Circle := [c5Fixed, c5Mov k]

/-! ## Theorems -/

/-- `zoomTrace` distributes over list append, threading the folded state. -/
theorem zoomTrace_append (l1 l2 : List ℕ) (s : CameraState) :
    zoomTrace (l1 ++ l2) s = zoomTrace l1 s ++ zoomTrace l2 (l1.foldl c1Step s) := by
  induction l1 generalizing s with
  | nil => rfl
  | cons k ks ih => simp [zoomTrace, ih]

section RatKernelEval

/- Batteries marks the `Rat` field operations `@[irreducible]`, which blocks
`decide` on concrete rational arithmetic; within this section they are
restored to `semireducible` so the chunked run evaluations below reduce. -/
attribute [local semireducible] Rat.add Rat.mul Rat.sub Rat.inv

theorem c1_fold0 : (List.range' 0 10).foldl c1Step (CameraEngine.init 800 600) = c1S10 := by
  decide

theorem c1_fold10 : (List.range' 10 10).foldl c1Step c1S10 = c1S20 := by decide

theorem c1_fold20 : (List.range' 20 10).foldl c1Step c1S20 = c1S30 := by decide

theorem c1_fold30 : (List.range' 30 10).foldl c1Step c1S30 = c1S40 := by decide

theorem c1_fold40 : (List.range' 40 10).foldl c1Step c1S40 = c1S50 := by decide

theorem c1_fold50 : (List.range' 50 10).foldl c1Step c1S50 = c1S60 := by decide

theorem c1_trace0 : zoomTrace (List.range' 0 10) (CameraEngine.init 800 600) = c1Z0 := by
  decide

theorem c1_trace10 : zoomTrace (List.range' 10 10) c1S10 = c1Z10 := by decide

theorem c1_trace20 : zoomTrace (List.range' 20 10) c1S20 = c1Z20 := by decide

theorem c1_trace30 : zoomTrace (List.range' 30 10) c1S30 = c1Z30 := by decide

theorem c1_trace40 : zoomTrace (List.range' 40 10) c1S40 = c1Z40 := by decide

theorem c1_trace50 : zoomTrace (List.range' 50 10) c1S50 = c1Z50 := by decide

/-- The 60 sample indices, split into six blocks of ten. -/
theorem c1_range_split : List.range 60 =
    List.range' 0 10 ++ (List.range' 10 10 ++ (List.range' 20 10 ++
      (List.range' 30 10 ++ (List.range' 40 10 ++ List.range' 50 10)))) := by
  decide

/-- The C1 run's final state, evaluated in blocks of ten steps. -/
theorem c1State_60 : c1State 60 = c1S60 := by
  rw [c1State, c1_range_split, List.foldl_append, List.foldl_append,
    List.foldl_append, List.foldl_append, List.foldl_append,
    c1_fold0, c1_fold10, c1_fold20, c1_fold30, c1_fold40, c1_fold50]

/-- The C1 run's zoom values, evaluated in blocks of ten steps. -/
theorem c1Zooms_eq : c1Zooms =
    c1Z0 ++ (c1Z10 ++ (c1Z20 ++ (c1Z30 ++ (c1Z40 ++ c1Z50)))) := by
  rw [c1Zooms, c1_range_split, zoomTrace_append, zoomTrace_append,
    zoomTrace_append, zoomTrace_append, zoomTrace_append,
    c1_fold0, c1_fold10, c1_fold20, c1_fold30, c1_fold40,
    c1_trace0, c1_trace10, c1_trace20, c1_trace30, c1_trace40, c1_trace50]

/-- `isChainLe` decides `List.Chain' (· ≤ ·)`. -/
theorem isChainLe_iff (l : List ℚ) : isChainLe l = true ↔ List.Chain' (· ≤ ·) l := by
  match l with
  | [] => simp [isChainLe]
  | [a] => simp [isChainLe]
  | a :: b :: rest =>
    rw [List.chain'_cons, ← isChainLe_iff (b :: rest)]
    simp [isChainLe]

/-- C1 (counterexample): the claim is false for the engine as implemented.
The final-state bounds do hold, but the zoom sequence of the 60-step run is
not monotonically non-decreasing: the spring-damper integrator overshoots
the 1.8 target (it peaks near 1.985 around step 18 and then decreases), so
the conjunction asserted by the claim fails. -/
theorem c1_spring_run_counterexample : ¬ c1ClaimProp := by
  rw [c1ClaimProp, c1State_60, c1Zooms_eq]
  rw [← isChainLe_iff]
  decide

/-- C1 (amended): after the 60 update calls at 1/30 s steps the final state
satisfies `|x − 300| < 5`, `|y − 400| < 5` and `|zoom − 1.8| < 0.05`, but the
zoom is *not* monotone: being a spring-damper (not first-order exponential)
integrator it overshoots — the 18th zoom sample (`c1Zooms.getD 17 0`,
≈ 1.98490) exceeds the 1.8 target, and the 19th sample is strictly smaller
than the 18th. -/
theorem c1_spring_run_amended : |(c1State 60).x - 300| < 5 ∧
    |(c1State 60).y - 400| < 5 ∧ |(c1State 60).zoom - 9 / 5| < 1 / 20 ∧
    9 / 5 < c1Zooms.getD 17 0 ∧ c1Zooms.getD 18 0 < c1Zooms.getD 17 0 := by
  rw [c1State_60, c1Zooms_eq]
  decide

/-! ## Claim C6: no eased zoom-out release in the engine -/

/-- C6 (counterexample): the claim asserts that an `update` at `t = 2.7`
yields a pre-lerp target zoom of `1.4 ± 0.01`; with the engine as
implemented (single tap at `t = 1.0`, `maxZoomLevel = 1.8`) the call finds
no active tap (the 0.8 s look-behind has expired) and, since more than
`zoomHoldDuration = 2` seconds have passed since `lastTapTime`, snaps
`targetZoom` to 1, which is not within 0.01 of 1.4. -/
theorem c6_eased_release_counterexample :
    ¬ |(CameraEngine.update (CameraEngine.init 800 600) (27 / 10) [c1Tap]
        (9 / 5)).targetZoom - 7 / 5| ≤ 1 / 100 := by
  decide

/-- C6 (amended): the engine has no eased zoom-out release (no
`tapDuration`/`zoomOutSpeed` parameters and no use of `easeInOutCubic` in
`update`); a call to `update` at `t = 2.7` with the tap at `t = 1.0` on a
fresh engine sets the pre-lerp target zoom to exactly 1. -/
theorem c6_eased_release_amended :
    (CameraEngine.update (CameraEngine.init 800 600) (27 / 10) [c1Tap]
      (9 / 5)).targetZoom = 1 := by
  decide

end RatKernelEval

/-- One `update` call preserves keyframe-observable equivalence. -/
theorem update_kfEq (a b : CameraState) (t : ℚ) (taps : List TapEvent)
    (tz : ℚ) (h : KfEq a b) : KfEq (CameraEngine.update a t taps tz)
      (CameraEngine.update b t taps tz) := by
  obtain ⟨hW, hH, hx, hy, htx, hty, hz, htz, hvx, hvy, hvz, hrt, hdisj⟩ := h
  cases a with
  | mk aW aH ax ay atx aty az atz avx avy avz alu alt art =>
  cases b with
  | mk bW bH bx bty2 btx bty bz btz bvx bvy bvz blu blt brt =>
  simp only at hW hH hx hy htx hty hz htz hvx hvy hvz hrt hdisj
  subst hW hH hx hy htx hty hz htz hvx hvy hvz hrt
  cases hfa : CameraEngine.findActiveTap t taps with
  | some tap =>
    simp only [CameraEngine.update, hfa, KfEq, CameraEngine.applySpringPhysics,
      CameraEngine.clampPosition]
    simp
  | none =>
    rcases hdisj with heq | ⟨h1, h2, h3⟩
    · subst heq
      by_cases hc : zoomHoldDuration < t - alt <;>
        · simp only [CameraEngine.update, hfa, hc, if_true, if_false, KfEq,
            CameraEngine.applySpringPhysics, CameraEngine.clampPosition]
          simp
    · subst h1 h2 h3
      by_cases ca : zoomHoldDuration < t - alt <;>
        by_cases cb : zoomHoldDuration < t - blt <;>
        · simp only [CameraEngine.update, hfa, ca, cb, if_true, if_false, KfEq,
            CameraEngine.applySpringPhysics, CameraEngine.clampPosition]
          simp

/-- `keyframeLoop` records only keyframe-observable data, so it cannot
distinguish `KfEq`-equivalent start states. -/
theorem keyframeLoop_kfEq (taps : List TapEvent) (fps tz : ℚ) (ks : List ℕ)
    (a b : CameraState) (h : KfEq a b) :
    CameraEngine.keyframeLoop taps fps tz ks a =
      CameraEngine.keyframeLoop taps fps tz ks b := by
  induction ks generalizing a b with
  | nil => rfl
  | cons k ks ih =>
    have h' := update_kfEq a b ((k : ℚ) / fps) taps tz h
    obtain ⟨-, -, hx, hy, -, -, hz, -⟩ := h'
    simp only [CameraEngine.keyframeLoop]
    rw [hx, hy, hz, ih _ _ (update_kfEq a b ((k : ℚ) / fps) taps tz h)]

/-- `reset` leaves `KfEq`-equivalent states for any two engines with the
same dimensions: targets are back at their reset values, so the residual
`lastTapTime` is unobservable. -/
theorem reset_kfEq (a b : CameraState) (hW : a.videoWidth = b.videoWidth)
    (hH : a.videoHeight = b.videoHeight) :
    KfEq (CameraEngine.reset a) (CameraEngine.reset b) := by
  refine ⟨by simp [CameraEngine.reset, hW], by simp [CameraEngine.reset, hH],
    ?_, ?_, ?_, ?_, rfl, rfl, rfl, rfl, rfl, rfl, Or.inr ⟨rfl, rfl, rfl⟩⟩ <;>
    simp [CameraEngine.reset, hW, hH]

/-- C2: `generateKeyframes` is deterministic and self-contained — on any two
engine states with the same video dimensions (in particular, the same
instance before and after arbitrary `update` calls, whose residual
`lastTapTime`/`lastUpdateTime` survive `reset`), it returns equal keyframe
arrays for equal arguments. -/
theorem generateKeyframes_deterministic (s s' : CameraState)
    (hW : s.videoWidth = s'.videoWidth) (hH : s.videoHeight = s'.videoHeight)
    (taps : List TapEvent) (duration fps tz : ℚ) :
    CameraEngine.generateKeyframes s taps duration fps tz =
      CameraEngine.generateKeyframes s' taps duration fps tz := by
  rw [CameraEngine.generateKeyframes, CameraEngine.generateKeyframes]
  exact keyframeLoop_kfEq taps fps tz _ _ _ (reset_kfEq s s' hW hH)

/-- C2 (witness): a fresh 800×600 engine and one carrying residual
`lastTapTime`/`lastUpdateTime` state produce the same keyframes. -/
theorem generateKeyframes_deterministic_witness :
    CameraEngine.generateKeyframes (CameraEngine.init 800 600) [⟨1, 300, 400⟩]
        (1 / 3) 30 (9 / 5) =
      CameraEngine.generateKeyframes
        { CameraEngine.init 800 600 with lastTapTime := 5, lastUpdateTime := 9 }
        [⟨1, 300, 400⟩] (1 / 3) 30 (9 / 5) :=
  generateKeyframes_deterministic (CameraEngine.init 800 600)
    { CameraEngine.init 800 600 with lastTapTime := 5, lastUpdateTime := 9 }
    rfl rfl [⟨1, 300, 400⟩] (1 / 3) 30 (9 / 5)


/-! ## Detection scenarios and claim theorems -/

section RatKernelEval2

attribute [local semireducible] Rat.add Rat.mul Rat.sub Rat.inv

/-- C3: on the synthetic 30-frame/10 fps track, tap synthesis followed by
clustering yields exactly one tap event, at time 0.5 s and integer position
(250, 250). -/
theorem c3_e2e_single_tap :
    CircleDetector.clusterTaps (CircleDetector.detectTapsFromMovement c3Track)
      80 (1 / 2) = [⟨1 / 2, 250, 250⟩] := by
  decide

/-- C4 (counterexample): `clusterTaps` is not idempotent — on `c4Taps` one
pass yields two events whose representatives are 79 px and 0.2 s apart, so
a second pass merges them. -/
theorem c4_cluster_idempotent_counterexample :
    ¬ CircleDetector.clusterTaps (CircleDetector.clusterTaps c4Taps 80 (1 / 2))
        80 (1 / 2) =
      CircleDetector.clusterTaps c4Taps 80 (1 / 2) := by
  decide

end RatKernelEval2

/-- `clusterGo` is the identity (up to emitting the carried first element)
on a tail whose consecutive elements never satisfy the merge predicate. -/
theorem clusterGo_fixpoint (d t : ℚ) (rest : List TapEvent) :
    ∀ first last : TapEvent,
      List.Chain' (fun a b =>
        ¬(CircleDetector.distSq b.x b.y a.x a.y < d ^ 2 ∧
          b.time - a.time < t)) (last :: rest) →
      CircleDetector.clusterGo d t first last rest = first :: rest := by
  induction rest with
  | nil => intro first last _; rfl
  | cons tap r ih =>
    intro first last h
    rw [List.chain'_cons] at h
    rw [CircleDetector.clusterGo, if_neg h.1, ih tap tap h.2]

/-- C4 (amended): clustering is idempotent exactly on lists whose
consecutive events are non-mergeable (at least 80 px apart or at least
0.5 s apart); a single pass need not produce such a list — adjacent cluster
representatives can still be mutually close (see the counterexample) — so
idempotence fails in general. -/
theorem c4_cluster_idempotent_amended (taps : List TapEvent)
    (h : List.Chain' (fun a b =>
      ¬(CircleDetector.distSq b.x b.y a.x a.y < 80 ^ 2 ∧
        b.time - a.time < 1 / 2)) taps) :
    CircleDetector.clusterTaps taps 80 (1 / 2) = taps := by
  cases taps with
  | nil => rfl
  | cons t0 ts => exact clusterGo_fixpoint 80 (1 / 2) ts t0 t0 h

section RatKernelEval3

attribute [local semireducible] Rat.add Rat.mul Rat.sub Rat.inv

/-- C4 (witness): two events 500 px apart are a fixed point of clustering. -/
theorem c4_cluster_idempotent_witness :
    CircleDetector.clusterTaps [⟨0, 0, 0⟩, ⟨1, 500, 0⟩] 80 (1 / 2) =
      [⟨0, 0, 0⟩, ⟨1, 500, 0⟩] :=
  c4_cluster_idempotent_amended [⟨0, 0, 0⟩, ⟨1, 500, 0⟩]
    (List.chain'_pair.mpr (by norm_num [CircleDetector.distSq]))

end RatKernelEval3

/-- C9: a zero-duration video samples no frames, and detection returns an
empty tap list and an empty debug track (rather than failing), for every
candidate stream and calibration. -/
theorem c9_zero_duration (candidatesAt : ℕ → List CircleDetector.Circle)
    (calibratedTargetPos calibratedExcludePos : Option (ℚ × ℚ)) :
    (CircleDetector.detectCircles candidatesAt 0 calibratedTargetPos
        calibratedExcludePos).taps = [] ∧
    (CircleDetector.detectCircles candidatesAt 0 calibratedTargetPos
        calibratedExcludePos).debugData = [] := by
  have h : ⌈(0 : ℚ) * 10⌉.toNat = 0 := by norm_num
  constructor <;>
    simp [CircleDetector.detectCircles, h, CircleDetector.detectLoop,
      CircleDetector.detectTapsFromMovement, CircleDetector.clusterTaps]

/-- Each cluster contributes its first member, so the clustered list is a
sublist of the input. -/
theorem clusterGo_sublist (d t : ℚ) (rest : List TapEvent) :
    ∀ first last : TapEvent,
      (CircleDetector.clusterGo d t first last rest).Sublist (first :: rest) := by
  induction rest with
  | nil => intro first _; exact List.Sublist.refl _
  | cons tap r ih =>
    intro first last
    rw [CircleDetector.clusterGo]
    split
    · exact (ih first tap).trans
        (List.Sublist.cons_cons first (List.sublist_cons_self tap r))
    · exact List.Sublist.cons_cons first (ih tap tap)

/-- `clusterTaps` returns a sublist of its input. -/
theorem clusterTaps_sublist (taps : List TapEvent) (d t : ℚ) :
    (CircleDetector.clusterTaps taps d t).Sublist taps := by
  cases taps with
  | nil => exact List.Sublist.refl _
  | cons t0 ts => exact clusterGo_sublist d t ts t0 t0

/-- `clusterGo` never returns the empty list. -/
theorem clusterGo_ne_nil (d t : ℚ) (rest : List TapEvent) :
    ∀ first last : TapEvent,
      CircleDetector.clusterGo d t first last rest ≠ [] := by
  induction rest with
  | nil => intro first _; simp [CircleDetector.clusterGo]
  | cons tap r ih =>
    intro first last
    rw [CircleDetector.clusterGo]
    split
    · exact ih first tap
    · simp

/-- C10: output provenance of clustering — the empty input maps to the empty
output, a non-empty input to a non-empty output, the output is never longer
than the input, and every output event is (as a whole record, hence in
`time`, `x` and `y`) one of the input events. -/
theorem clusterTaps_provenance (taps : List TapEvent) (d t : ℚ) :
    CircleDetector.clusterTaps [] d t = [] ∧
    (taps ≠ [] → CircleDetector.clusterTaps taps d t ≠ []) ∧
    (CircleDetector.clusterTaps taps d t).length ≤ taps.length ∧
    ∀ e ∈ CircleDetector.clusterTaps taps d t, e ∈ taps := by
  refine ⟨rfl, ?_, (clusterTaps_sublist taps d t).length_le,
    fun e he => (clusterTaps_sublist taps d t).subset he⟩
  intro hne
  cases taps with
  | nil => exact absurd rfl hne
  | cons t0 ts => exact clusterGo_ne_nil d t ts t0 t0

/-- C10 (witness): the provenance facts instantiated on a concrete pair of
distant taps. -/
theorem clusterTaps_provenance_witness :
    CircleDetector.clusterTaps [(⟨0, 0, 0⟩ : TapEvent), ⟨1, 500, 0⟩] 80 (1 / 2) ≠ [] ∧
    (CircleDetector.clusterTaps [(⟨0, 0, 0⟩ : TapEvent), ⟨1, 500, 0⟩] 80
        (1 / 2)).length ≤ 2 :=
  ⟨(clusterTaps_provenance [⟨0, 0, 0⟩, ⟨1, 500, 0⟩] 80 (1 / 2)).2.1
      (by simp),
    (clusterTaps_provenance [⟨0, 0, 0⟩, ⟨1, 500, 0⟩] 80 (1 / 2)).2.2.1⟩

/-- The taps emitted by `tapsLoop` are non-decreasing in time and bounded
below by the open pause's start time (when a pause is open) or the previous
sample's time (otherwise), provided the remaining sample times are
non-decreasing. -/
theorem tapsLoop_sorted (rest : List CircleDetector.FrameSample) :
    ∀ (prev : CircleDetector.FrameSample) (i : ℕ)
      (pause : Option (ℕ × ℚ × ℚ × ℚ)) (lb : ℚ),
      List.Chain' (fun a b => a.time ≤ b.time) (prev :: rest) →
      lb ≤ prev.time →
      (∀ ps t0 px py, pause = some (ps, t0, px, py) →
        lb ≤ t0 ∧ t0 ≤ prev.time) →
      List.Chain' (fun a b => a.time ≤ b.time)
        (CircleDetector.tapsLoop rest prev i pause) ∧
      ∀ e ∈ CircleDetector.tapsLoop rest prev i pause, lb ≤ e.time := by
  induction rest with
  | nil =>
    intro prev i pause lb _ hprev hpause
    rcases pause with - | ⟨ps, t0, px, py⟩
    · exact ⟨List.chain'_nil, by simp [CircleDetector.tapsLoop]⟩
    · rw [CircleDetector.tapsLoop]
      split
      · refine ⟨List.chain'_singleton _, ?_⟩
        intro e he
        rw [List.mem_singleton] at he
        subst he
        exact (hpause ps t0 px py rfl).1
      · exact ⟨List.chain'_nil, by simp⟩
  | cons curr rest ih =>
    intro prev i pause lb hchain hprev hpause
    rw [List.chain'_cons] at hchain
    obtain ⟨hpc, hchain'⟩ := hchain
    have hlbc : lb ≤ curr.time := le_trans hprev hpc
    have hnone : ∀ j : ℕ,
        List.Chain' (fun a b => a.time ≤ b.time)
          (CircleDetector.tapsLoop rest curr j none) ∧
        ∀ e ∈ CircleDetector.tapsLoop rest curr j none, lb ≤ e.time :=
      fun j => ih curr j none lb hchain' hlbc
        (by intro ps t0 px py h; cases h)
    have hflush : ∀ (j : ℕ) (t0 : ℚ) (v : TapEvent), t0 ≤ prev.time →
        lb ≤ t0 → v.time = t0 →
        List.Chain' (fun a b => a.time ≤ b.time)
          (v :: CircleDetector.tapsLoop rest curr j none) ∧
        ∀ e ∈ v :: CircleDetector.tapsLoop rest curr j none, lb ≤ e.time := by
      intro j t0 v ht0p hlbt0 hvt
      have hrec := ih curr j none curr.time hchain' (le_refl _)
        (by intro ps t0 px py h; cases h)
      refine ⟨List.chain'_cons'.mpr ⟨?_, hrec.1⟩, ?_⟩
      · intro y hy
        have hym : y ∈ CircleDetector.tapsLoop rest curr j none :=
          List.mem_of_mem_head? hy
        rw [hvt]
        exact le_trans (le_trans ht0p hpc) (hrec.2 y hym)
      · intro e he
        rcases List.mem_cons.mp he with he | he
        · rw [he, hvt]; exact hlbt0
        · exact (hnone j).2 e he
    rcases hm : prev.pos with - | ⟨pxv, pyv⟩ <;>
      rcases hm2 : curr.pos with - | ⟨cx, cy⟩ <;>
      simp only [CircleDetector.tapsLoop, hm, hm2]
    case _ | _ | _ =>
      -- a null frame on either side: flush any sufficiently long pause
      rcases pause with - | ⟨ps, t0, qx, qy⟩
      · exact hnone (i + 1)
      · have ht0 := hpause ps t0 qx qy rfl
        dsimp only
        by_cases hlen : CircleDetector.minPauseFrames ≤ i - ps
        · rw [if_pos hlen]
          exact hflush (i + 1) t0
            ⟨t0, ((CircleDetector.jsRound qx : ℤ) : ℚ),
              ((CircleDetector.jsRound qy : ℤ) : ℚ)⟩ ht0.2 ht0.1 rfl
        · rw [if_neg hlen]
          exact hnone (i + 1)
    case _ =>
      -- both frames carry positions
      by_cases hmov : CircleDetector.distSq cx cy pxv pyv <
        CircleDetector.movementThreshold ^ 2
      · rw [if_pos hmov]
        rcases pause with - | ⟨ps, t0, qx, qy⟩
        · exact ih curr (i + 1) (some (i, curr.time, cx, cy)) lb hchain' hlbc
            (by intro ps' t0' px' py' h; cases h; exact ⟨hlbc, le_refl _⟩)
        · have ht0 := hpause ps t0 qx qy rfl
          exact ih curr (i + 1) (some (ps, t0, qx, qy)) lb hchain' hlbc
            (by intro ps' t0' px' py' h; cases h;
                exact ⟨ht0.1, le_trans ht0.2 hpc⟩)
      · rw [if_neg hmov]
        rcases pause with - | ⟨ps, t0, qx, qy⟩
        · exact hnone (i + 1)
        · have ht0 := hpause ps t0 qx qy rfl
          dsimp only
          by_cases hlen : CircleDetector.minPauseFrames ≤ i - ps
          · rw [if_pos hlen]
            exact hflush (i + 1) t0
              ⟨t0, ((CircleDetector.jsRound qx : ℤ) : ℚ),
                ((CircleDetector.jsRound qy : ℤ) : ℚ)⟩ ht0.2 ht0.1 rfl
          · rw [if_neg hlen]
            exact hnone (i + 1)

/-- Tap synthesis emits taps ordered by time whenever the track's sample
times are non-decreasing. -/
theorem detectTaps_sorted (frameData : List CircleDetector.FrameSample)
    (h : List.Chain' (fun a b => a.time ≤ b.time) frameData) :
    List.Chain' (fun a b => a.time ≤ b.time)
      (CircleDetector.detectTapsFromMovement frameData) := by
  cases frameData with
  | nil => exact List.chain'_nil
  | cons f0 rest =>
    exact (tapsLoop_sorted rest f0 1 none f0.time h (le_refl _)
      (by intro ps t0 px py h; cases h)).1

/-- Clustering preserves time ordering: the output is a sublist of the
input, and `≤` on times is transitive. -/
theorem clusterTaps_sorted (taps : List TapEvent) (d t : ℚ)
    (h : List.Chain' (fun a b => a.time ≤ b.time) taps) :
    List.Chain' (fun a b => a.time ≤ b.time)
      (CircleDetector.clusterTaps taps d t) := by
  haveI : IsTrans TapEvent (fun a b => a.time ≤ b.time) :=
    ⟨fun _ _ _ hab hbc => le_trans hab hbc⟩
  rw [List.chain'_iff_pairwise] at h ⊢
  exact List.Pairwise.sublist (clusterTaps_sublist taps d t) h

/-- C7: for every per-frame track with non-decreasing sample times, the
event list produced by `detectTapsFromMovement` followed by `clusterTaps`
(with the pipeline's 80 px / 0.5 s thresholds) is non-decreasing in time. -/
theorem c7_pipeline_ordered (frameData : List CircleDetector.FrameSample)
    (h : List.Chain' (fun a b => a.time ≤ b.time) frameData) :
    List.Chain' (fun a b => a.time ≤ b.time)
      (CircleDetector.clusterTaps
        (CircleDetector.detectTapsFromMovement frameData) 80 (1 / 2)) :=
  clusterTaps_sorted _ 80 (1 / 2) (detectTaps_sorted frameData h)

/-- C7 (witness): the ordering invariant instantiated on the concrete C3
synthetic track. -/
theorem c7_pipeline_ordered_witness :
    List.Chain' (fun a b => a.time ≤ b.time)
      (CircleDetector.clusterTaps
        (CircleDetector.detectTapsFromMovement c3Track) 80 (1 / 2)) := by
  refine c7_pipeline_ordered c3Track ?_
  rw [show c3Track = (List.range 30).map (fun i =>
      if i ≤ 4 then ⟨(i : ℚ) / 10, some ((50 + 50 * i : ℚ), (50 + 50 * i : ℚ))⟩
      else if i ≤ 7 then ⟨(i : ℚ) / 10, some (250, 250)⟩
      else ⟨(i : ℚ) / 10, none⟩) from rfl, List.chain'_map]
  refine ((List.pairwise_lt_range 30).imp ?_).chain'
  intro a b hab
  have h1 : ((a : ℚ) + 1) ≤ (b : ℚ) := by exact_mod_cast hab
  split_ifs <;> · simp only; linarith

section RatKernelEval4

attribute [local semireducible] Rat.add Rat.mul Rat.sub Rat.inv

/-- The progress values for a 0.15 s video: `totalFrames = ⌊1.5⌋ = 1` but
the sampling loop runs twice (`0 < 0.15` and `0.1 < 0.15`), so the second
in-loop report is `(2/1)·60 = 120`, after which `80` follows. -/
theorem progressList_point15 :
    CircleDetector.progressList (3 / 20) = [60, 120, 80, 100] := by
  decide

end RatKernelEval4

/-- C8 (counterexample): for duration 0.15 s the progress callback receives
`60, 120, 80, 100` — the sequence leaves `[0, 100]` and decreases from 120
to 80, refuting the claim for arbitrary positive durations.  (For durations
below 0.1 s the source even divides by `totalFrames = 0`.) -/
theorem c8_progress_counterexample :
    ¬ (List.Chain' (· ≤ ·) (CircleDetector.progressList (3 / 20)) ∧
       ∀ v ∈ CircleDetector.progressList (3 / 20), 0 ≤ v ∧ v ≤ 100) := by
  intro h
  have h120 : (120 : ℚ) ∈ CircleDetector.progressList (3 / 20) := by
    rw [progressList_point15]
    simp
  have := (h.2 120 h120).2
  norm_num at this

/-- C8 (amended): the progress sequence is non-decreasing and stays within
`[0, 100]` for durations whose frame count `duration · 10` is an exact
integer, and for all durations of at least three full sample intervals
(`⌊duration · 10⌋ ≥ 3`); for shorter non-integer durations the final in-loop
report `60 · ⌈10d⌉ / ⌊10d⌋` exceeds the later fixed report of 80 (and below
one interval the source divides by zero). -/
theorem c8_progress_amended (d : ℚ) (hd : 0 < d)
    (h : (∃ m : ℤ, d * 10 = m) ∨ 3 ≤ ⌊d * 10⌋) :
    List.Chain' (· ≤ ·) (CircleDetector.progressList d) ∧
    ∀ v ∈ CircleDetector.progressList d, 0 ≤ v ∧ v ≤ 100 := by
  have hd10 : 0 < d * 10 := by linarith
  have hf0 : 1 ≤ ⌊d * 10⌋ := by
    rcases h with ⟨m, hm⟩ | h3
    · rw [hm] at hd10 ⊢
      rw [Int.floor_intCast]
      exact_mod_cast hd10
    · omega
  have hF : (0 : ℚ) < ((⌊d * 10⌋ : ℤ) : ℚ) := by exact_mod_cast hf0
  have hkey : 3 * ⌈d * 10⌉ ≤ 4 * ⌊d * 10⌋ := by
    rcases h with ⟨m, hm⟩ | h3
    · rw [hm, Int.floor_intCast, Int.ceil_intCast]
      have : (0 : ℤ) ≤ m := by
        rw [hm] at hd10; exact_mod_cast le_of_lt hd10
      omega
    · have := Int.ceil_le_floor_add_one (d * 10)
      omega
  have hn : (⌈d * 10⌉.toNat : ℤ) = ⌈d * 10⌉ :=
    Int.toNat_of_nonneg (by positivity)
  have hbound : ∀ k : ℕ, k < ⌈d * 10⌉.toNat →
      ((k : ℚ) + 1) / ((⌊d * 10⌋ : ℤ) : ℚ) * 60 ≤ 80 := by
    intro k hk
    rw [div_mul_eq_mul_div, div_le_iff₀ hF]
    have hkn : (k : ℚ) + 1 ≤ ((⌈d * 10⌉ : ℤ) : ℚ) := by
      rw [← hn]; exact_mod_cast hk
    have hc : (3 : ℚ) * ((⌈d * 10⌉ : ℤ) : ℚ) ≤
        4 * ((⌊d * 10⌋ : ℤ) : ℚ) := by exact_mod_cast hkey
    linarith
  have hmem : ∀ v ∈ (List.range ⌈d * 10⌉.toNat).map
      (fun (k : ℕ) => ((k : ℚ) + 1) / ((⌊d * 10⌋ : ℤ) : ℚ) * 60),
      0 ≤ v ∧ v ≤ 80 := by
    intro v hv
    rw [List.mem_map] at hv
    obtain ⟨k, hk, rfl⟩ := hv
    rw [List.mem_range] at hk
    exact ⟨by positivity, hbound k hk⟩
  constructor
  · rw [CircleDetector.progressList, List.chain'_append]
    refine ⟨?_, by norm_num, ?_⟩
    · rw [List.chain'_map]
      refine ((List.pairwise_lt_range _).imp ?_).chain'
      intro a b hab
      have h1 : ((a : ℚ) + 1) ≤ (b : ℚ) + 1 := by
        have : (a : ℚ) ≤ b := by exact_mod_cast le_of_lt hab
        linarith
      exact mul_le_mul_of_nonneg_right
        ((div_le_div_iff_of_pos_right hF).mpr h1) (by norm_num)
    · intro x hx y hy
      obtain ⟨hne, hxl⟩ := List.mem_getLast?_eq_getLast hx
      have hxm := hxl ▸ List.getLast_mem hne
      simp only [List.head?_cons, Option.mem_def, Option.some.injEq] at hy
      rw [← hy]
      exact (hmem x hxm).2
  · intro v hv
    rw [CircleDetector.progressList, List.mem_append] at hv
    rcases hv with hv | hv
    · exact ⟨(hmem v hv).1, le_trans (hmem v hv).2 (by norm_num)⟩
    · simp only [List.mem_cons, List.not_mem_nil, or_false] at hv
      rcases hv with rfl | rfl <;> norm_num

/-- C8 (witness): the amended claim instantiated at a 2-second video
(`duration · 10 = 20` is integral). -/
theorem c8_progress_amended_witness :
    List.Chain' (· ≤ ·) (CircleDetector.progressList 2) ∧
    ∀ v ∈ CircleDetector.progressList 2, 0 ≤ v ∧ v ≤ 100 :=
  c8_progress_amended 2 (by norm_num) (Or.inl ⟨20, by norm_num⟩)

/-! ## Claim C5: stationary rejection -/

/-- Reading a key just written by `mapSet`. -/
theorem mapGet_set_self (m : CircleDetector.StatMap)
    (k : CircleDetector.StatKey) (v : CircleDetector.StatEntry) :
    CircleDetector.mapGet (CircleDetector.mapSet m k v) k = some v := by
  induction m with
  | nil => simp [CircleDetector.mapSet, CircleDetector.mapGet]
  | cons p m ih =>
    by_cases hp : p.1 = k
    · simp [CircleDetector.mapSet, CircleDetector.mapGet, hp]
    · have hany : ((p :: m).any fun q => decide (q.1 = k)) = m.any fun q => decide (q.1 = k) := by
        simp [hp]
      rw [CircleDetector.mapSet, hany]
      by_cases hm : (m.any fun q => decide (q.1 = k)) = true
      · rw [if_pos hm]
        rw [CircleDetector.mapSet, if_pos hm] at ih
        simpa [CircleDetector.mapGet, hp] using ih
      · rw [if_neg hm]
        rw [CircleDetector.mapSet, if_neg hm] at ih
        simpa [CircleDetector.mapGet, hp] using ih
  
/-- Writing one key leaves reads of any other key unchanged. -/
theorem mapGet_set_ne (m : CircleDetector.StatMap)
    (k k' : CircleDetector.StatKey) (v : CircleDetector.StatEntry)
    (hne : k' ≠ k) :
    CircleDetector.mapGet (CircleDetector.mapSet m k v) k' =
      CircleDetector.mapGet m k' := by
  rw [CircleDetector.mapSet]
  split
  · rw [CircleDetector.mapGet, List.find?_map]
    have hfp : ((fun q : CircleDetector.StatKey × CircleDetector.StatEntry =>
        decide (q.1 = k')) ∘ (fun p => if p.1 = k then (k, v) else p)) =
        fun q : CircleDetector.StatKey × CircleDetector.StatEntry =>
          decide (q.1 = k') := by
      funext q
      by_cases hq : q.1 = k
      · simp only [Function.comp_apply, if_pos hq]
        have h1 : ¬((k, v).1 = k') := fun h => hne h.symm
        have h2 : ¬(q.1 = k') := by rw [hq]; exact fun h => hne h.symm
        simp [h1, h2]
      · simp [Function.comp_apply, if_neg hq]
    rw [hfp, CircleDetector.mapGet]
    cases hfind : List.find?
        (fun q : CircleDetector.StatKey × CircleDetector.StatEntry =>
          decide (q.1 = k')) m with
    | none => rfl
    | some q =>
      have hq : q.1 = k' := by simpa using List.find?_some hfind
      have : ¬(q.1 = k) := by rw [hq]; exact hne
      simp [this]
  · rw [CircleDetector.mapGet, CircleDetector.mapGet, List.find?_append]
    have hkk' : ¬(k = k') := fun h => hne h.symm
    have hnone : List.find?
        (fun q : CircleDetector.StatKey × CircleDetector.StatEntry =>
          decide (q.1 = k')) [(k, v)] = none := by
      simp [hkk']
    rw [hnone, Option.or_none]

/-- Filtering keeps a read intact when the read entry satisfies the
predicate (earlier occurrences of the key do not exist, and order is
preserved). -/
theorem mapGet_filter (m : CircleDetector.StatMap)
    (k : CircleDetector.StatKey) (v : CircleDetector.StatEntry)
    (pr : CircleDetector.StatKey × CircleDetector.StatEntry → Bool)
    (hget : CircleDetector.mapGet m k = some v) (hpr : pr (k, v) = true) :
    CircleDetector.mapGet (m.filter pr) k = some v := by
  induction m with
  | nil => simp [CircleDetector.mapGet] at hget
  | cons p m ih =>
    by_cases hp : p.1 = k
    · rw [CircleDetector.mapGet, List.find?_cons_of_pos _ (by simpa using hp)] at hget
      simp only [Option.map_some', Option.some.injEq] at hget
      have hpkv : p = (k, v) := by
        cases p; simp_all
      subst hpkv
      rw [List.filter_cons]
      simp only [hpr, if_true]
      rw [CircleDetector.mapGet, List.find?_cons_of_pos _ (by simp)]
      rfl
    · rw [CircleDetector.mapGet, List.find?_cons_of_neg _ (by simpa using hp)] at hget
      rw [List.filter_cons]
      split
      · rw [CircleDetector.mapGet, List.find?_cons_of_neg _ (by simpa using hp)]
        exact ih hget
      · exact ih hget

/-- One `updateStationaryTracking` call on a two-candidate frame `[fixed,
mov]`: the entry under `fixed`'s key (present, and recorded at `fixed`'s own
position) is bumped and re-stamped, and `mov` (hashing to a different cell)
does not disturb it. -/
theorem updateStationary_pair_bump (fixed mov : CircleDetector.Circle)
    (n : ℕ) (m : CircleDetector.StatMap) (e : CircleDetector.StatEntry)
    (hget : CircleDetector.mapGet m
      (CircleDetector.getStationaryKey fixed.x fixed.y) = some e)
    (hex : e.x = fixed.x) (hey : e.y = fixed.y)
    (hkey : CircleDetector.getStationaryKey mov.x mov.y ≠
      CircleDetector.getStationaryKey fixed.x fixed.y) :
    CircleDetector.mapGet
        (CircleDetector.updateStationaryTracking [fixed, mov] n m)
        (CircleDetector.getStationaryKey fixed.x fixed.y) =
      some ⟨e.x, e.y, e.frameCount + 1, n⟩ := by
  rw [CircleDetector.updateStationaryTracking]
  simp only [List.foldl_cons, List.foldl_nil, hget]
  have h0 : CircleDetector.distSq fixed.x fixed.y e.x e.y = 0 := by
    rw [hex, hey, CircleDetector.distSq]; ring
  rw [h0, if_pos (by norm_num [CircleDetector.STATIONARY_GRID_SIZE])]
  set m1 := CircleDetector.mapSet m
    (CircleDetector.getStationaryKey fixed.x fixed.y)
    { e with frameCount := e.frameCount + 1, lastSeen := n } with hm1
  have hget1 : CircleDetector.mapGet m1
      (CircleDetector.getStationaryKey fixed.x fixed.y) =
      some { e with frameCount := e.frameCount + 1, lastSeen := n } :=
    mapGet_set_self m _ _
  have hget2 : ∀ m2, (∃ v, m2 = CircleDetector.mapSet m1
        (CircleDetector.getStationaryKey mov.x mov.y) v) →
      CircleDetector.mapGet
          (m2.filter (fun p => decide ((n : ℤ) - p.2.lastSeen ≤ 20)))
          (CircleDetector.getStationaryKey fixed.x fixed.y) =
        some { e with frameCount := e.frameCount + 1, lastSeen := n } := by
    rintro m2 ⟨v, rfl⟩
    refine mapGet_filter _ _ _ _ ?_ (by simp)
    rw [mapGet_set_ne _ _ _ _ hkey.symm]
    exact hget1
  rcases hmg : CircleDetector.mapGet m1
      (CircleDetector.getStationaryKey mov.x mov.y) with - | ex2
  · exact hget2 _ ⟨_, rfl⟩
  · dsimp only
    by_cases hd : CircleDetector.distSq mov.x mov.y ex2.x ex2.y <
      CircleDetector.STATIONARY_GRID_SIZE ^ 2
    · rw [if_pos hd]
      exact hget2 _ ⟨_, rfl⟩
    · rw [if_neg hd]
      exact hget2 _ ⟨_, rfl⟩

/-- Like `updateStationary_pair_bump`, when `fixed`'s cell has no entry yet:
a fresh entry at `fixed`'s position with `frameCount = 1` is created. -/
theorem updateStationary_pair_fresh (fixed mov : CircleDetector.Circle)
    (n : ℕ) (m : CircleDetector.StatMap)
    (hget : CircleDetector.mapGet m
      (CircleDetector.getStationaryKey fixed.x fixed.y) = none)
    (hkey : CircleDetector.getStationaryKey mov.x mov.y ≠
      CircleDetector.getStationaryKey fixed.x fixed.y) :
    CircleDetector.mapGet
        (CircleDetector.updateStationaryTracking [fixed, mov] n m)
        (CircleDetector.getStationaryKey fixed.x fixed.y) =
      some ⟨fixed.x, fixed.y, 1, n⟩ := by
  rw [CircleDetector.updateStationaryTracking]
  simp only [List.foldl_cons, List.foldl_nil, hget]
  set m1 := CircleDetector.mapSet m
    (CircleDetector.getStationaryKey fixed.x fixed.y)
    ⟨fixed.x, fixed.y, 1, n⟩ with hm1
  have hget1 : CircleDetector.mapGet m1
      (CircleDetector.getStationaryKey fixed.x fixed.y) =
      some ⟨fixed.x, fixed.y, 1, n⟩ :=
    mapGet_set_self m _ _
  have hget2 : ∀ m2, (∃ v, m2 = CircleDetector.mapSet m1
        (CircleDetector.getStationaryKey mov.x mov.y) v) →
      CircleDetector.mapGet
          (m2.filter (fun p => decide ((n : ℤ) - p.2.lastSeen ≤ 20)))
          (CircleDetector.getStationaryKey fixed.x fixed.y) =
        some ⟨fixed.x, fixed.y, 1, n⟩ := by
    rintro m2 ⟨v, rfl⟩
    refine mapGet_filter _ _ _ _ ?_ (by simp)
    rw [mapGet_set_ne _ _ _ _ hkey.symm]
    exact hget1
  rcases hmg : CircleDetector.mapGet m1
      (CircleDetector.getStationaryKey mov.x mov.y) with - | ex2
  · exact hget2 _ ⟨_, rfl⟩
  · dsimp only
    by_cases hd : CircleDetector.distSq mov.x mov.y ex2.x ex2.y <
      CircleDetector.STATIONARY_GRID_SIZE ^ 2
    · rw [if_pos hd]
      exact hget2 _ ⟨_, rfl⟩
    · rw [if_neg hd]
      exact hget2 _ ⟨_, rfl⟩

/-- In the C5 scenario the fixed candidate's cell accumulates one frame
count per frame: after frames `0 … i` its entry is
`⟨fixed.x, fixed.y, i + 1, i⟩`, provided the moving candidate never hashes
into the fixed candidate's cell. -/
theorem scenarioMap_entry (fixed : CircleDetector.Circle)
    (movC : ℕ → CircleDetector.Circle) (i : ℕ)
    (hkeys : ∀ j ≤ i, CircleDetector.getStationaryKey (movC j).x (movC j).y ≠
      CircleDetector.getStationaryKey fixed.x fixed.y) :
    CircleDetector.mapGet (scenarioMap fixed movC i)
        (CircleDetector.getStationaryKey fixed.x fixed.y) =
      some ⟨fixed.x, fixed.y, i + 1, i⟩ := by
  induction i with
  | zero =>
    exact updateStationary_pair_fresh fixed (movC 0) 0 [] rfl
      (hkeys 0 (le_refl 0))
  | succ i ih =>
    have hstep := updateStationary_pair_bump fixed (movC (i + 1)) (i + 1)
      (scenarioMap fixed movC i) ⟨fixed.x, fixed.y, i + 1, i⟩
      (ih (fun j hj => hkeys j (le_trans hj (Nat.le_succ i)))) rfl rfl
      (hkeys (i + 1) (le_refl _))
    exact hstep

/-- A candidate whose cell is hard-stationary (`frameCount ≥ 2·threshold`)
is hard-skipped by the scoring loop, whatever the other inputs. -/
theorem scoreCircle_hard_stationary (c : CircleDetector.Circle)
    (lastPosition predicted : Option (ℚ × ℚ)) (velocitySq : ℚ)
    (m : CircleDetector.StatMap)
    (calibratedTargetPos calibratedExcludePos : Option (ℚ × ℚ))
    (e : CircleDetector.StatEntry)
    (hget : CircleDetector.mapGet m
      (CircleDetector.getStationaryKey c.x c.y) = some e)
    (hfc : CircleDetector.STATIONARY_THRESHOLD * 2 ≤ e.frameCount) :
    CircleDetector.scoreCircle c lastPosition predicted velocitySq m
      calibratedTargetPos calibratedExcludePos = none := by
  have hzone : CircleDetector.isInStationaryZone c.x c.y m = true := by
    rw [CircleDetector.isInStationaryZone, hget]
    have : CircleDetector.STATIONARY_THRESHOLD ≤ e.frameCount := by
      rw [CircleDetector.STATIONARY_THRESHOLD] at hfc ⊢
      omega
    simpa using this
  rw [CircleDetector.scoreCircle]
  simp only [hzone, if_true, hget, if_pos hfc, Option.none_bind,
    Option.map_none']

/-- A candidate lying in no stationary zone, with positive pixel count and
no calibration set, receives a strictly positive score (never a hard skip):
every multiplier on its path is positive and the stationary skips are
disabled. -/
theorem scoreCircle_clean_positive (c : CircleDetector.Circle)
    (lastPosition predicted : Option (ℚ × ℚ)) (velocitySq : ℚ)
    (m : CircleDetector.StatMap)
    (hzone : CircleDetector.isInStationaryZone c.x c.y m = false)
    (hpc : 0 < c.pixelCount) :
    ∃ s, CircleDetector.scoreCircle c lastPosition predicted velocitySq m
      none none = some s ∧ 0 < s := by
  rw [CircleDetector.scoreCircle]
  simp only [hzone, Bool.false_eq_true, if_false, Option.bind_some]
  cases predicted with
  | none =>
    cases lastPosition with
    | none => exact ⟨c.pixelCount, rfl, hpc⟩
    | some lp =>
      dsimp only
      split_ifs <;> exact ⟨_, rfl, by positivity⟩
  | some pr =>
    cases lastPosition with
    | none =>
      dsimp only
      split_ifs <;> exact ⟨_, rfl, by positivity⟩
    | some lp =>
      dsimp only
      split_ifs <;> exact ⟨_, rfl, by positivity⟩

/-- On a two-candidate frame `[fixed, mov]` where `fixed` is hard-stationary
and `mov` is in no stationary zone with positive pixel count (calibration
unset), the selector returns `mov` — whatever the last position, history and
frame index. -/
theorem selectBestCircle_pair (fixed mov : CircleDetector.Circle)
    (lastPosition : Option (ℚ × ℚ)) (history : List CircleDetector.HistEntry)
    (m : CircleDetector.StatMap) (frameIndex : ℕ)
    (e : CircleDetector.StatEntry)
    (hget : CircleDetector.mapGet m
      (CircleDetector.getStationaryKey fixed.x fixed.y) = some e)
    (hfc : CircleDetector.STATIONARY_THRESHOLD * 2 ≤ e.frameCount)
    (hzone : CircleDetector.isInStationaryZone mov.x mov.y m = false)
    (hpc : 0 < mov.pixelCount) :
    CircleDetector.selectBestCircle [fixed, mov] lastPosition history m
      frameIndex none none = some mov := by
  rw [CircleDetector.selectBestCircle]
  simp only [List.foldl_cons, List.foldl_nil]
  rw [scoreCircle_hard_stationary fixed lastPosition _ _ m none none e hget hfc]
  obtain ⟨s, hs, hspos⟩ := scoreCircle_clean_positive mov lastPosition
    (if 2 ≤ history.length then CircleDetector.predictNextPosition history
      else none)
    (if 3 ≤ history.length then
      (CircleDetector.calculateVelocity history).sqMagnitude else 0)
    m hzone hpc
  rw [hs]
  simp [hspos]

section RatKernelEval5

attribute [local semireducible] Rat.add Rat.mul Rat.sub Rat.inv

/-- C5 (counterexample): the claim also requires the selector to return the
moving candidate on *every* frame where it is present; but on frame 0 of
the concrete scenario (fixed candidate with pixelCount 1000 at (500, 500),
moving candidate with pixelCount 10 — both present) the pipeline selects
the *fixed* candidate, whose raw pixel count dominates before the
stationary penalty has accumulated. -/
theorem c5_stationary_rejection_counterexample :
    (CircleDetector.detectCircles c5Cand (11 / 10) none
        none).debugData.head? = some ⟨0, some (c5Fixed.x, c5Fixed.y)⟩ ∧
    c5Cand 0 = [c5Fixed, c5Mov 0] ∧ (c5Mov 0).x ≠ c5Fixed.x := by
  decide

end RatKernelEval5

/-- C5 (amended): (1) in the two-candidate scenario (fixed candidate present
every frame, moving candidate never hashing into its cell) the fixed
candidate's stationary entry reaches `frameCount = i + 1` after frames
`0 … i` — hard-stationary (≥ 10) from frame 9 on; and (2) whenever the
fixed candidate's cell is hard-stationary and the moving candidate is in no
stationary zone, has positive pixel count, and no calibration is set, the
selector hard-skips the fixed candidate and returns the moving one,
whatever the history, last position and frame index.  (On earlier frames
the fixed candidate can win on raw pixel count — see the
counterexample.) -/
theorem c5_stationary_rejection_amended :
    (∀ (fixed : CircleDetector.Circle) (movC : ℕ → CircleDetector.Circle)
      (i : ℕ),
      (∀ j ≤ i, CircleDetector.getStationaryKey (movC j).x (movC j).y ≠
        CircleDetector.getStationaryKey fixed.x fixed.y) →
      CircleDetector.mapGet (scenarioMap fixed movC i)
          (CircleDetector.getStationaryKey fixed.x fixed.y) =
        some ⟨fixed.x, fixed.y, i + 1, i⟩) ∧
    (∀ (fixed mov : CircleDetector.Circle) (lastPosition : Option (ℚ × ℚ))
      (history : List CircleDetector.HistEntry)
      (m : CircleDetector.StatMap) (frameIndex : ℕ)
      (e : CircleDetector.StatEntry),
      CircleDetector.mapGet m
        (CircleDetector.getStationaryKey fixed.x fixed.y) = some e →
      CircleDetector.STATIONARY_THRESHOLD * 2 ≤ e.frameCount →
      CircleDetector.isInStationaryZone mov.x mov.y m = false →
      0 < mov.pixelCount →
      CircleDetector.selectBestCircle [fixed, mov] lastPosition history m
        frameIndex none none = some mov) :=
  ⟨scenarioMap_entry, selectBestCircle_pair⟩

section RatKernelEval6

attribute [local semireducible] Rat.add Rat.mul Rat.sub Rat.inv

/-- C5 (witness): in the concrete scenario, after frames 0–9 the fixed
candidate's entry has `frameCount = 10`, and the frame-9 selection returns
the moving candidate. -/
theorem c5_stationary_rejection_witness :
    CircleDetector.mapGet (scenarioMap c5Fixed c5Mov 9)
        (CircleDetector.getStationaryKey c5Fixed.x c5Fixed.y) =
      some ⟨500, 500, 10, 9⟩ ∧
    CircleDetector.selectBestCircle [c5Fixed, c5Mov 9] none []
      (scenarioMap c5Fixed c5Mov 9) 9 none none = some (c5Mov 9) := by
  have h1 := c5_stationary_rejection_amended.1 c5Fixed c5Mov 9 (by decide)
  exact ⟨h1, c5_stationary_rejection_amended.2 c5Fixed (c5Mov 9) none []
    (scenarioMap c5Fixed c5Mov 9) 9 ⟨500, 500, 10, 9⟩ h1 (by decide)
    (by decide) (by decide)⟩

end RatKernelEval6
